import Mathlib

/-!
# Verification of the Telesto geological grid core

Shallow embedding of the grid-generation pipeline of the Telesto project
(the `Geological3DGridTool` component and its `analysisUtils` variant):
horizon interpolation, fault-influence estimation, layer-stack building,
grid compatibility checking and grid merging.

Modelling conventions:

* JavaScript numbers are modelled as exact rationals (`ℚ`).
* `Math.sqrt` never needs to be modelled: every use of a Euclidean distance
  in the source is either a comparison (`d < r`, monotone in the square) or
  a flooring followed by squaring (`1 / max(d, m)^2 = 1 / max(d², m²)`), so
  all distances are represented by their squares, exactly.
* The ambient impure function (`Math.random`) and the transcendental
  functions (`Math.sin`, `Math.cos`, `Math.exp`, `Math.pow`) are abstracted
  into an explicit `Oracle` of rational-valued functions; every theorem
  quantifies over the oracle, so nothing proved depends on the values these
  functions return. The random draws are indexed by sampling position and
  layer index.
* `Math.round(v)` is `⌊v + 1/2⌋` (valid for all finite JS numbers).
* JavaScript's stable `Array.prototype.sort` with a key comparator is
  modelled by the stable `List.insertionSort` on the comparison key.
* UI-only data (colors, timestamps) is dropped; display strings (mismatch
  messages, merged-grid names) are kept as strings but their exact text is
  simplified — only their presence and count are specified behavior.
* The sampling loop `for (v = lo; v <= hi; v += step)` does not terminate
  in JS when `step ≤ 0`; the model returns `[]` in that (never exercised)
  case and is otherwise the exact list of loop values.
-/

/-- JavaScript `Math.round`: round half toward positive infinity. -/
def jsRound (q : ℚ) : ℤ := ⌊q + 1/2⌋

/-- Rounding to 2 decimals: `Math.round(q * 100) / 100`. -/
def round2 (q : ℚ) : ℚ := (jsRound (q * 100) : ℚ) / 100

/-- Rounding to 3 decimals: `Math.round(q * 1000) / 1000`. -/
def round3 (q : ℚ) : ℚ := (jsRound (q * 1000) : ℚ) / 1000

/-- Rounding to 1 decimal: `Math.round(q * 10) / 10`. -/
def round1 (q : ℚ) : ℚ := (jsRound (q * 10) : ℚ) / 10

/-- `Math.min(...l)` over a list (the empty case, `Infinity` in JS, is never
reached by the modelled code paths and is mapped to `0`). -/
def qMin : List ℚ → ℚ
  | [] => 0
  | a :: as => as.foldl min a

/-- `Math.max(...l)` over a list (empty case as in `qMin`). -/
def qMax : List ℚ → ℚ
  | [] => 0
  | a :: as => as.foldl max a

/-- `Math.max(...l)` over natural numbers (layer counts). -/
def natMax : List ℕ → ℕ
  | [] => 0
  | a :: as => as.foldl max a

/-- `Math.min(...l)` over natural numbers (layer counts). -/
def natMin : List ℕ → ℕ
  | [] => 0
  | a :: as => as.foldl min a

/-- A surface point `{x, y, z}` of a horizon. -/
structure Pt where
  x : ℚ
  y : ℚ
  z : ℚ
deriving DecidableEq, Repr

/-- A fault trace point `{x, y, z, segId}`. -/
structure FPt where
  x : ℚ
  y : ℚ
  z : ℚ
  segId : ℤ
deriving DecidableEq, Repr

/-- A named horizon surface (input only). -/
structure Horizon where
  name : String
  points : List Pt
deriving DecidableEq, Repr

/-- A named fault system (input only). -/
structure FaultSystem where
  name : String
  points : List FPt
deriving DecidableEq, Repr

/-- Axis-aligned bounds record. -/
structure Bounds where
  xMin : ℚ
  xMax : ℚ
  yMin : ℚ
  yMax : ℚ
  zMin : ℚ
  zMax : ℚ
deriving DecidableEq, Repr

/-- A grid cell as pushed by `generateGeologicalGrid`; the fields after
`structuralDip` are only populated by `combineGrids` (in JS they are absent
from built cells, modelled here by defaults). The `sourceColor` display
string is dropped. -/
structure Cell where
  x : ℚ
  y : ℚ
  z : ℚ
  layer : ℕ
  bulkVolume : ℚ
  faultFlag : ℤ
  wellPath : ℕ
  porosity : ℚ
  permeability : ℚ
  structuralDip : ℚ
  originalGrid : String := ""
  combinedLayer : ℕ := 0
  gridIndex : ℕ := 0
  combinedPorosity : ℚ := 0
  combinedPermeability : ℚ := 0
  mergeWeight : ℚ := 0
deriving DecidableEq, Repr

/-- Merge direction (the `mergeDirection` state, `'vertical' | 'horizontal'`). -/
inductive MergeDir where
  | vertical
  | horizontal
deriving DecidableEq, Repr

/-- Statistics attached to a merged grid (`mergeStats`). -/
structure MergeStats where
  avgPorosity : ℚ
  avgPermeability : ℚ
  faultDensity : ℚ
  wellDensity : ℚ
deriving DecidableEq, Repr

/-- A geological grid (the `newGrid` / `combinedGrid` object). `id` and
`timestamp` are environment-supplied in JS (`Date.now()`); `id` is threaded
as a parameter and the timestamp is dropped. -/
structure Grid where
  id : String
  name : String
  points : List Cell
  totalVolume : ℚ
  layerCount : ℕ
  pointCount : ℕ
  bounds : Bounds
  horizons : String := ""
  faults : String := ""
  isCombined : Bool := false
  sourceGrids : List String := []
  mergeType : Option MergeDir := none
  mergeStats : Option MergeStats := none
deriving DecidableEq, Repr

/-- Result of `calculateAdvancedFaultInfluence`. -/
structure FaultInfo where
  influence : ℚ
  faultFlag : ℤ
  displacement : ℚ
deriving DecidableEq, Repr

/-- Result of `canCombineGrids`. On the fewer-than-two-grids early return
the JS object carries no `compatibilityScore` property, modelled as `none`. -/
structure CheckResult where
  canCombine : Bool
  reason : String
  details : List String
  compatibilityScore : Option ℤ
deriving DecidableEq, Repr

/-- Typed failure of the layer-stack builder (the JS code reports the
failure to the user and returns without producing a grid; the failure
outcome is modelled as a typed error value, per the spec's error taxonomy). -/
inductive BuildError where
  | insufficientInput
deriving DecidableEq, Repr

/-- Oracle bundling the ambient impure/transcendental functions used by the
source. `sinF`, `cosF` model `Math.sin`, `Math.cos`; `powF` models
`e ↦ Math.pow(10, e)`; `expK` models `d² ↦ Math.exp(-√d² / (radius·k))`
applied to a squared distance; the `rand*` families model the successive
`Math.random()` draws, indexed by sampling position and layer. Every
theorem below quantifies over the oracle. -/
structure Oracle where
  sinF : ℚ → ℚ
  cosF : ℚ → ℚ
  expK : ℚ → ℚ
  powF : ℚ → ℚ
  randDisp : ℚ → ℚ → ℕ → ℚ
  randPor : ℚ → ℚ → ℕ → ℚ
  randPerm : ℚ → ℚ → ℕ → ℚ
  randWell : ℚ → ℚ → ℕ → ℚ

/-- An oracle with all functions constantly `0`, used to instantiate
concrete scenarios (note that it satisfies `sinF 0 = 0`, the only fact the
real `Math.sin` needs to contribute to any concrete scenario below). -/
def trivOracle : Oracle :=
  ⟨fun _ => 0, fun _ => 0, fun _ => 0, fun _ => 0,
   fun _ _ _ => 0, fun _ _ _ => 0, fun _ _ _ => 0, fun _ _ _ => 0⟩

/-- Squared planar distance from `(x, y)` to a surface point. -/
def dist2 (x y : ℚ) (p : Pt) : ℚ := (x - p.x) ^ 2 + (y - p.y) ^ 2

/-- Squared 3D distance from `(x, y, z)` to a fault trace point. -/
def dist3sq (x y z : ℚ) (p : FPt) : ℚ :=
  (x - p.x) ^ 2 + (y - p.y) ^ 2 + (z - p.z) ^ 2

/-- A surface point tagged with its squared distance to the query: the
`{...p, distance}` record built inside `geologicalInterpolation`. -/
structure DPt where
  pt : Pt
  d2 : ℚ
deriving DecidableEq, Repr

/-- Sort key of the interpolators: ascending distance (equivalently,
ascending squared distance). -/
def dptLE (a b : DPt) : Prop := a.d2 ≤ b.d2

instance : DecidableRel dptLE := fun a b => inferInstanceAs (Decidable (a.d2 ≤ b.d2))

instance : IsTotal DPt dptLE := ⟨fun a b => le_total a.d2 b.d2⟩

instance : IsTrans DPt dptLE := ⟨fun _ _ _ h1 h2 => le_trans h1 h2⟩

/-- `geologicalInterpolation` of `Geological3DGridTool` (part_006): take
the 6 nearest points by planar distance; if the nearest one is closer than
1 unit return its `z`; otherwise inverse-distance-squared weighting with
the distance floored at `0.1` (so the weight is `1 / max(d², 0.01)`). -/
def geologicalInterpolation (x y : ℚ) (points : List Pt) : ℚ :=
  match points with
  | [] => 0
  | _ :: _ =>
    let nearestPoints :=
      (List.insertionSort dptLE (points.map fun p => ⟨p, dist2 x y p⟩)).take
        (min 6 points.length)
    match nearestPoints with
    | [] => 0
    | h :: _ =>
      if h.d2 < 1 then h.pt.z
      else
        let weightSum := (nearestPoints.map fun q => 1 / max q.d2 (1/100)).sum
        let valueSum :=
          (nearestPoints.map fun q => q.pt.z * (1 / max q.d2 (1/100))).sum
        if 0 < weightSum then valueSum / weightSum else h.pt.z

/-- `geologicalInterpolation` of `analysisUtils` (part_002): take the 8
nearest points; no exact-match short-circuit; the distance is floored at 1
(so the weight is `1 / max(d², 1)`). -/
def geologicalInterpolationU (x y : ℚ) (points : List Pt) : ℚ :=
  match points with
  | [] => 0
  | _ :: _ =>
    let nearestPoints :=
      (List.insertionSort dptLE (points.map fun p => ⟨p, dist2 x y p⟩)).take
        (min 8 points.length)
    match nearestPoints with
    | [] => 0
    | h :: _ =>
      let weightSum := (nearestPoints.map fun q => 1 / max q.d2 1).sum
      let valueSum := (nearestPoints.map fun q => q.pt.z * (1 / max q.d2 1)).sum
      if 0 < weightSum then valueSum / weightSum else h.pt.z

/-- One step of the fault-influence accumulation: state is
`(totalInfluence, maxInfluence, dominantFault)`. The `point.segId || 1`
JS idiom maps a zero/absent segment id to 1. -/
def faultStep (expK : ℚ → ℚ) (radius x y z : ℚ) (st : ℚ × ℚ × ℤ) (p : FPt) :
    ℚ × ℚ × ℤ :=
  if dist3sq x y z p < radius ^ 2 then
    let influence := expK (dist3sq x y z p)
    (st.1 + influence,
     if st.2.1 < influence then (influence, if p.segId = 0 then 1 else p.segId)
     else st.2)
  else st

/-- Common core of both `calculateAdvancedFaultInfluence` variants:
accumulate over every fault trace point within `radius`, cap the total at
1, flag the dominant segment when the maximal single contribution exceeds
`thresh`, and scale the random displacement draw by `scale`. -/
def faultInfluenceCore (expK : ℚ → ℚ) (radius thresh scale rand : ℚ)
    (faults : List FaultSystem) (x y z : ℚ) : FaultInfo :=
  let st := faults.foldl
    (fun s f => f.points.foldl (faultStep expK radius x y z) s) ((0 : ℚ), (0 : ℚ), (0 : ℤ))
  { influence := min st.1 1,
    faultFlag := if thresh < st.2.1 then st.2.2 else 0,
    displacement := st.1 * scale * (rand - 1/2) }

/-- `calculateAdvancedFaultInfluence` of `Geological3DGridTool` (part_006):
radius 120, kernel `exp(-d/30)`, dominance threshold 0.08, displacement
scale 60. -/
def calculateAdvancedFaultInfluence (expK : ℚ → ℚ) (rand : ℚ)
    (faults : List FaultSystem) (x y z : ℚ) : FaultInfo :=
  faultInfluenceCore expK 120 (8/100) 60 rand faults x y z

/-- `calculateAdvancedFaultInfluence` of `analysisUtils` (part_002):
radius 100, kernel `exp(-d/30)`, dominance threshold 0.1, displacement
scale 50. -/
def calculateAdvancedFaultInfluenceU (expK : ℚ → ℚ) (rand : ℚ)
    (faults : List FaultSystem) (x y z : ℚ) : FaultInfo :=
  faultInfluenceCore expK 100 (1/10) 50 rand faults x y z

/-- The values visited by `for (v = lo; v <= hi; v += step)` (for
`step > 0`; the JS loop never terminates otherwise, and the modelled code
only calls this with positive step). -/
def latticeQ (lo hi step : ℚ) : List ℚ :=
  if 0 < step ∧ lo ≤ hi then
    (List.range (⌊(hi - lo) / step⌋.toNat + 1)).map fun (k : ℕ) => lo + (k : ℚ) * step
  else []

/-- The body of the inner sampling loop of `generateGeologicalGrid`: the
stack of cells emitted at one sampling position `(x, y)` (empty when the
interpolated top does not lie strictly above the interpolated bottom). -/
def cellsAtPosition (O : Oracle) (top bottom : List Pt)
    (faults : List FaultSystem) (numLayers : ℕ) (spacing x y : ℚ) : List Cell :=
  let topZ := geologicalInterpolation x y top
  let bottomZ := geologicalInterpolation x y bottom
  if topZ ≤ bottomZ then []
  else
    let thickness := topZ - bottomZ
    let layerThickness := thickness / (numLayers + 1)
    (List.range (numLayers + 2)).map fun (layerIdx : ℕ) =>
      let layerFrac : ℚ := (layerIdx : ℚ) / ((numLayers : ℚ) + 1)
      let structuralDip := O.sinF (x * (8/10000)) * O.cosF (y * (6/10000)) * 12
      let z1 := bottomZ + layerFrac * thickness + structuralDip * layerFrac
      let faultInfo := calculateAdvancedFaultInfluence O.expK
        (O.randDisp x y layerIdx) faults x y z1
      let z2 := z1 + faultInfo.displacement
      let cellVolume := spacing * spacing * layerThickness
      let porosity := 12/100 + O.randPor x y layerIdx * (18/100)
      let permeability := O.powF (O.randPerm x y layerIdx * (35/10) - 5/10)
      let isWellLocation : ℕ :=
        if O.randWell x y layerIdx < 15/1000 ∧
            bottomZ + thickness * (3/4) < z2 then 1 else 0
      { x := round2 x, y := round2 y, z := round2 z2, layer := layerIdx,
        bulkVolume := round2 cellVolume, faultFlag := faultInfo.faultFlag,
        wellPath := isWellLocation, porosity := round3 porosity,
        permeability := round2 permeability,
        structuralDip := round1 structuralDip }

/-- The raw (unrounded) volume contributed by one sampling position to the
running `totalVolume` accumulator: one `cellVolume` per emitted cell. -/
def posRawVolume (top bottom : List Pt) (numLayers : ℕ) (spacing x y : ℚ) : ℚ :=
  let topZ := geologicalInterpolation x y top
  let bottomZ := geologicalInterpolation x y bottom
  if topZ ≤ bottomZ then 0
  else ((numLayers : ℚ) + 2) *
    (spacing * spacing * ((topZ - bottomZ) / ((numLayers : ℚ) + 1)))

/-- The bounds record `{xMin: Math.min(...pts.map(p => p.x)), ...}`. -/
def envelope (xs ys zs : List ℚ) : Bounds :=
  ⟨qMin xs, qMax xs, qMin ys, qMax ys, qMin zs, qMax zs⟩

/-- The `allPoints` array of `generateGeologicalGrid`: the union of the
first two horizons' points. -/
def buildAllPoints (h0 h1 : Horizon) : List Pt := h0.points ++ h1.points

/-- The `bounds` object of `generateGeologicalGrid`: the envelope of the
two input horizons' points (not of the emitted cells). -/
def buildBounds (h0 h1 : Horizon) : Bounds :=
  envelope ((buildAllPoints h0 h1).map Pt.x) ((buildAllPoints h0 h1).map Pt.y)
    ((buildAllPoints h0 h1).map Pt.z)

/-- The `gridSpacing` constant of `generateGeologicalGrid`. -/
def buildSpacing (h0 h1 : Horizon) : ℚ :=
  min (((buildBounds h0 h1).xMax - (buildBounds h0 h1).xMin) / 45)
    (((buildBounds h0 h1).yMax - (buildBounds h0 h1).yMin) / 45)

/-- The x-axis sampling positions of `generateGeologicalGrid`. -/
def buildXs (h0 h1 : Horizon) : List ℚ :=
  latticeQ (buildBounds h0 h1).xMin (buildBounds h0 h1).xMax (buildSpacing h0 h1)

/-- The y-axis sampling positions of `generateGeologicalGrid`. -/
def buildYs (h0 h1 : Horizon) : List ℚ :=
  latticeQ (buildBounds h0 h1).yMin (buildBounds h0 h1).yMax (buildSpacing h0 h1)

/-- The `grid` array accumulated by the double sampling loop of
`generateGeologicalGrid`, in push order. -/
def buildCells (O : Oracle) (h0 h1 : Horizon) (faultData : List FaultSystem)
    (numLayers : ℕ) : List Cell :=
  (buildXs h0 h1).bind fun x => (buildYs h0 h1).bind fun y =>
    cellsAtPosition O h0.points h1.points faultData numLayers
      (buildSpacing h0 h1) x y

/-- The final (unrounded) value of the `totalVolume` accumulator of
`generateGeologicalGrid`. -/
def buildRawVolume (h0 h1 : Horizon) (numLayers : ℕ) : ℚ :=
  ((buildXs h0 h1).map fun x =>
    ((buildYs h0 h1).map fun y =>
      posRawVolume h0.points h1.points numLayers (buildSpacing h0 h1) x y).sum).sum

/-- `generateGeologicalGrid` (part_006): derives sampling bounds and
spacing from the first two horizons, emits a proportional layer stack at
every sampling position, and produces the resulting grid. The failing
early return (fewer than two horizons) is the typed error outcome. `gid`
stands for the environment-supplied `Date.now()` id and `prevCount` for
the number of already-registered grids (used only for the display name). -/
def generateGeologicalGrid (O : Oracle) (gid : String) (prevCount : ℕ)
    (horizonData : List Horizon) (faultData : List FaultSystem)
    (numLayers : ℕ) : Except BuildError Grid :=
  match horizonData with
  | h0 :: h1 :: _ =>
    Except.ok
      { id := gid, name := "Grid_" ++ toString (prevCount + 1),
        points := buildCells O h0 h1 faultData numLayers,
        totalVolume := (jsRound (buildRawVolume h0 h1 numLayers) : ℚ),
        layerCount := numLayers + 2,
        pointCount := (buildCells O h0 h1 faultData numLayers).length,
        bounds := buildBounds h0 h1,
        horizons := String.intercalate ", " (horizonData.map Horizon.name),
        faults := String.intercalate ", " (faultData.map FaultSystem.name) }
  | _ => Except.error BuildError.insufficientInput

/-- The state update around `generateGeologicalGrid`
(`setGrids(prev => [...prev, newGrid])` on success, nothing on failure). -/
def registerBuild (state : List Grid) (O : Oracle) (gid : String)
    (horizonData : List Horizon) (faultData : List FaultSystem)
    (numLayers : ℕ) : List Grid :=
  match generateGeologicalGrid O gid state.length horizonData faultData numLayers with
  | Except.ok g => state ++ [g]
  | Except.error _ => state

/-- The per-grid bounds mismatch test of `canCombineGrids`: some axis
difference against the first grid exceeds 10% of the first grid's extent
on that axis. -/
def boundsMismatch (first g : Grid) : Bool :=
  if (first.bounds.xMax - first.bounds.xMin) * (1/10) <
        max |g.bounds.xMin - first.bounds.xMin| |g.bounds.xMax - first.bounds.xMax| ∨
      (first.bounds.yMax - first.bounds.yMin) * (1/10) <
        max |g.bounds.yMin - first.bounds.yMin| |g.bounds.yMax - first.bounds.yMax| ∨
      (first.bounds.zMax - first.bounds.zMin) * (1/10) <
        max |g.bounds.zMin - first.bounds.zMin| |g.bounds.zMax - first.bounds.zMax|
  then true else false

/-- `canCombineGrids` (part_006), taken directly on the list of grid
records (the JS function receives ids and resolves them in the `grids`
state first). Mismatch message texts are simplified; their presence and
count are the specified behavior. -/
def canCombineGrids (gs : List Grid) : CheckResult :=
  match gs with
  | first :: second :: others =>
    let rest := second :: others
    let boundsDetails := rest.filterMap fun g =>
      if boundsMismatch first g then
        some ("Grid " ++ g.name ++ " bounds mismatch vs first grid") else none
    let layerCounts := (first :: rest).map Grid.layerCount
    let maxLayerDiff := natMax layerCounts - natMin layerCounts
    let layerDetails : List String :=
      if 5 < maxLayerDiff then ["Layer count variation too high"] else []
    let pointCounts := (first :: rest).map fun g => ((g.pointCount : ℚ))
    let avgPoints := pointCounts.sum / (pointCounts.length : ℚ)
    let pointVariance :=
      (pointCounts.map fun p => |p - avgPoints| / avgPoints).sum /
        (pointCounts.length : ℚ)
    let varDetails : List String :=
      if (3/10 : ℚ) < pointVariance then ["Point count variance too high"] else []
    let details := boundsDetails ++ layerDetails ++ varDetails
    let ok := boundsDetails.isEmpty &&
      (if maxLayerDiff ≤ 5 then true else false) &&
      (if pointVariance ≤ 3/10 then true else false)
    { canCombine := ok,
      reason := if ok then "Compatible grids" else "Incompatible grids - see details",
      details := details,
      compatibilityScore := some (jsRound (100 - (details.length : ℚ) * 20)) }
  | _ =>
    { canCombine := false, reason := "Need at least 2 grids", details := [],
      compatibilityScore := none }

/-- `calculateOffset` of `combineGrids`: vertical stacking separates grids
by 50 units in z; horizontal merging translates grid `i` in x by the summed
widths of the preceding grids. -/
def sumWidths : List Bounds → ℕ → ℚ
  | _, 0 => 0
  | [], _ + 1 => 0
  | b :: bs, n + 1 => (b.xMax - b.xMin) + sumWidths bs n

/-- The `(x, y, z)` translation applied to grid number `index`. -/
def calculateOffset (dir : MergeDir) (index : ℕ) (allBounds : List Bounds) :
    ℚ × ℚ × ℚ :=
  match dir with
  | MergeDir.vertical => (0, 0, (index : ℚ) * 50)
  | MergeDir.horizontal => (sumWidths allBounds index, 0, 0)

/-- The `blendedPoint` record built for each source cell in `combineGrids`. -/
def mergeCell (dir : MergeDir) (index : ℕ) (src : Grid) (allBounds : List Bounds)
    (c : Cell) : Cell :=
  let offset := calculateOffset dir index allBounds
  { c with
    x := c.x + offset.1, y := c.y + offset.2.1, z := c.z + offset.2.2,
    originalGrid := src.name,
    combinedLayer := c.layer + index * (src.layerCount + 1),
    gridIndex := index,
    combinedPorosity := c.porosity * (1 + (index : ℚ) * (1/10)),
    combinedPermeability := c.permeability * (1 + (index : ℚ) * (15/100)),
    mergeWeight := 1 / ((index : ℚ) + 1) }

/-- Sort key used on merged points: ascending z for vertical merges. -/
def cellZLE (a b : Cell) : Prop := a.z ≤ b.z

instance : DecidableRel cellZLE := fun a b => inferInstanceAs (Decidable (a.z ≤ b.z))

/-- Sort key used on merged points: ascending x for horizontal merges. -/
def cellXLE (a b : Cell) : Prop := a.x ≤ b.x

instance : DecidableRel cellXLE := fun a b => inferInstanceAs (Decidable (a.x ≤ b.x))

/-- The grid object built by `combineGrids` once compatibility has been
established. -/
def mergedGrid (gs : List Grid) (dir : MergeDir) : Grid :=
  let allBounds := gs.map Grid.bounds
  let translated := gs.enum.bind fun gi =>
    gi.2.points.map (mergeCell dir gi.1 gi.2 allBounds)
  let combinedPoints := match dir with
    | MergeDir.vertical => List.insertionSort cellZLE translated
    | MergeDir.horizontal => List.insertionSort cellXLE translated
  let combinedBounds := envelope (combinedPoints.map Cell.x)
    (combinedPoints.map Cell.y) (combinedPoints.map Cell.z)
  { id := "",
    name := (match dir with
      | MergeDir.vertical => "V"
      | MergeDir.horizontal => "H") ++ "-Merged_" ++
      String.intercalate "+" (gs.map Grid.name),
    points := combinedPoints,
    totalVolume := (gs.map Grid.totalVolume).sum,
    layerCount := natMax (gs.map Grid.layerCount) * gs.length,
    pointCount := (gs.map Grid.pointCount).sum,
    bounds := combinedBounds,
    isCombined := true,
    sourceGrids := gs.map Grid.name,
    mergeType := some dir,
    mergeStats := some
      { avgPorosity := (combinedPoints.map Cell.porosity).sum /
          (combinedPoints.length : ℚ),
        avgPermeability := (combinedPoints.map Cell.permeability).sum /
          (combinedPoints.length : ℚ),
        faultDensity := ((combinedPoints.filter fun p => 0 < p.faultFlag).length : ℚ) /
          (combinedPoints.length : ℚ),
        wellDensity := ((combinedPoints.filter fun p => 0 < p.wellPath).length : ℚ) /
          (combinedPoints.length : ℚ) } }

/-- `combineGrids` (part_006): checks compatibility and produces the merged
grid, or produces nothing (the JS function alerts and returns). -/
def combineGrids (gs : List Grid) (dir : MergeDir) : Option Grid :=
  if (canCombineGrids gs).canCombine then some (mergedGrid gs dir) else none

/-! ## Generic helper lemmas -/

theorem jsRound_intCast (m : ℤ) : jsRound (m : ℚ) = m := by
  unfold jsRound
  rw [add_comm, Int.floor_add_int]
  norm_num

theorem round2_intCast (m : ℤ) : round2 ((m : ℚ)) = (m : ℚ) := by
  unfold round2
  rw [show ((m : ℚ) * 100) = (((m * 100 : ℤ)) : ℚ) by push_cast; ring,
    jsRound_intCast]
  push_cast
  ring

theorem round2_natCast (n : ℕ) : round2 ((n : ℚ)) = (n : ℚ) := by
  simpa using round2_intCast (n : ℤ)

theorem round2_zero : round2 0 = 0 := by
  simpa using round2_intCast 0

theorem foldl_min_le_init (l : List ℚ) (a : ℚ) : l.foldl min a ≤ a := by
  induction l generalizing a with
  | nil => simp
  | cons b t ih =>
    simp only [List.foldl_cons]
    exact le_trans (ih (min a b)) (min_le_left a b)

theorem foldl_min_le_mem (l : List ℚ) (a : ℚ) : ∀ b ∈ l, l.foldl min a ≤ b := by
  induction l generalizing a with
  | nil => simp
  | cons c t ih =>
    intro b hb
    simp only [List.foldl_cons]
    rcases List.mem_cons.mp hb with h | h
    · subst h
      exact le_trans (foldl_min_le_init t (min a b)) (min_le_right a b)
    · exact ih (min a c) b h

theorem foldl_min_mem_or (l : List ℚ) (a : ℚ) :
    l.foldl min a = a ∨ l.foldl min a ∈ l := by
  induction l generalizing a with
  | nil => simp
  | cons c t ih =>
    simp only [List.foldl_cons]
    rcases ih (min a c) with h | h
    · rcases min_choice a c with hm | hm
      · exact Or.inl (h.trans hm)
      · exact Or.inr (List.mem_cons.mpr (Or.inl (h.trans hm)))
    · exact Or.inr (List.mem_cons.mpr (Or.inr h))

theorem foldl_max_init_le (l : List ℚ) (a : ℚ) : a ≤ l.foldl max a := by
  induction l generalizing a with
  | nil => simp
  | cons b t ih =>
    simp only [List.foldl_cons]
    exact le_trans (le_max_left a b) (ih (max a b))

theorem foldl_max_mem_le (l : List ℚ) (a : ℚ) : ∀ b ∈ l, b ≤ l.foldl max a := by
  induction l generalizing a with
  | nil => simp
  | cons c t ih =>
    intro b hb
    simp only [List.foldl_cons]
    rcases List.mem_cons.mp hb with h | h
    · subst h
      exact le_trans (le_max_right a b) (foldl_max_init_le t (max a b))
    · exact ih (max a c) b h

theorem foldl_max_mem_or (l : List ℚ) (a : ℚ) :
    l.foldl max a = a ∨ l.foldl max a ∈ l := by
  induction l generalizing a with
  | nil => simp
  | cons c t ih =>
    simp only [List.foldl_cons]
    rcases ih (max a c) with h | h
    · rcases max_choice a c with hm | hm
      · exact Or.inl (h.trans hm)
      · exact Or.inr (List.mem_cons.mpr (Or.inl (h.trans hm)))
    · exact Or.inr (List.mem_cons.mpr (Or.inr h))

theorem qMin_le (l : List ℚ) (a : ℚ) (h : a ∈ l) : qMin l ≤ a := by
  cases l with
  | nil => cases h
  | cons b t =>
    unfold qMin
    rcases List.mem_cons.mp h with rfl | h
    · exact foldl_min_le_init t a
    · exact foldl_min_le_mem t b a h

theorem le_qMax (l : List ℚ) (a : ℚ) (h : a ∈ l) : a ≤ qMax l := by
  cases l with
  | nil => cases h
  | cons b t =>
    unfold qMax
    rcases List.mem_cons.mp h with rfl | h
    · exact foldl_max_init_le t a
    · exact foldl_max_mem_le t b a h

theorem qMin_mem (l : List ℚ) (h : l ≠ []) : qMin l ∈ l := by
  cases l with
  | nil => exact absurd rfl h
  | cons b t =>
    unfold qMin
    rcases foldl_min_mem_or t b with h1 | h1
    · exact List.mem_cons.mpr (Or.inl h1)
    · exact List.mem_cons.mpr (Or.inr h1)

theorem qMax_mem (l : List ℚ) (h : l ≠ []) : qMax l ∈ l := by
  cases l with
  | nil => exact absurd rfl h
  | cons b t =>
    unfold qMax
    rcases foldl_max_mem_or t b with h1 | h1
    · exact List.mem_cons.mpr (Or.inl h1)
    · exact List.mem_cons.mpr (Or.inr h1)

theorem foldl_faultStep_outside (expK : ℚ → ℚ) (radius x y z : ℚ)
    (l : List FPt) (h : ∀ p ∈ l, ¬ dist3sq x y z p < radius ^ 2) :
    ∀ st, l.foldl (faultStep expK radius x y z) st = st := by
  induction l with
  | nil => intro st; rfl
  | cons p t ih =>
    intro st
    have hp : ¬ dist3sq x y z p < radius ^ 2 := h p (List.mem_cons_self p t)
    have ht : ∀ q ∈ t, ¬ dist3sq x y z q < radius ^ 2 :=
      fun q hq => h q (List.mem_cons_of_mem p hq)
    simp only [List.foldl_cons, faultStep, if_neg hp]
    exact ih ht st

theorem faultInfluenceCore_outside (expK : ℚ → ℚ) (radius thresh scale rand : ℚ)
    (faults : List FaultSystem) (x y z : ℚ)
    (h : ∀ f ∈ faults, ∀ p ∈ f.points, ¬ dist3sq x y z p < radius ^ 2) :
    faultInfluenceCore expK radius thresh scale rand faults x y z =
      ⟨0, 0, 0⟩ := by
  have hfold : faults.foldl
      (fun s f => f.points.foldl (faultStep expK radius x y z) s)
      ((0 : ℚ), (0 : ℚ), (0 : ℤ)) = ((0 : ℚ), (0 : ℚ), (0 : ℤ)) := by
    induction faults with
    | nil => rfl
    | cons f t ih =>
      simp only [List.foldl_cons]
      rw [foldl_faultStep_outside expK radius x y z f.points
        (h f (List.mem_cons_self f t)) _]
      exact ih fun g hg => h g (List.mem_cons_of_mem f hg)
  unfold faultInfluenceCore
  rw [hfold]
  have h1 : min (0 : ℚ) 1 = 0 := min_eq_left zero_le_one
  simp [h1]

theorem faultInfluenceCore_nil (expK : ℚ → ℚ) (radius thresh scale rand x y z : ℚ) :
    faultInfluenceCore expK radius thresh scale rand [] x y z = ⟨0, 0, 0⟩ :=
  faultInfluenceCore_outside expK radius thresh scale rand [] x y z
    (by intro f hf; cases hf)

theorem take_sort_subset (k : ℕ) (l : List DPt) (q : DPt)
    (h : q ∈ (List.insertionSort dptLE l).take k) : q ∈ l := by
  have h1 : q ∈ List.insertionSort dptLE l := List.take_subset k _ h
  exact (List.mem_insertionSort dptLE).mp h1

theorem interp_const (x y c : ℚ) (points : List Pt) (hne : points ≠ [])
    (hc : ∀ p ∈ points, p.z = c) :
    geologicalInterpolation x y points = c := by
  cases points with
  | nil => exact absurd rfl hne
  | cons p0 rest =>
    unfold geologicalInterpolation
    simp only []
    set tagged := (p0 :: rest).map fun p => DPt.mk p (dist2 x y p) with htagged
    have hz : ∀ q ∈ (List.insertionSort dptLE tagged).take
        (min 6 (p0 :: rest).length), q.pt.z = c := by
      intro q hq
      have h1 : q ∈ tagged := take_sort_subset _ _ q hq
      rw [htagged] at h1
      rcases List.mem_map.mp h1 with ⟨p, hp, rfl⟩
      exact hc p hp
    set nearest := (List.insertionSort dptLE tagged).take
      (min 6 (p0 :: rest).length) with hnear
    match hn : nearest with
    | [] =>
      exfalso
      have h0 : (List.insertionSort dptLE tagged).length = (p0 :: rest).length := by
        rw [List.length_insertionSort, htagged, List.length_map]
      have h1 : (List.take (min 6 (p0 :: rest).length)
          (List.insertionSort dptLE tagged)).length = 0 := by
        rw [← hnear]
        rfl
      rw [List.length_take, h0] at h1
      simp only [List.length_cons] at h1
      omega
    | h :: t =>
      have hzh : h.pt.z = c := hz h (hn ▸ List.mem_cons_self h t)
      by_cases hd : h.d2 < 1
      · simp [hd, hzh]
      · simp only [if_neg hd]
        have hval : ((h :: t).map fun q => q.pt.z * (1 / max q.d2 (1/100))).sum =
            c * ((h :: t).map fun q => 1 / max q.d2 (1/100)).sum := by
          have : ((h :: t).map fun q => q.pt.z * (1 / max q.d2 (1/100))) =
              ((h :: t).map fun q => c * (1 / max q.d2 (1/100))) := by
            apply List.map_congr_left
            intro q hq
            rw [hz q (hn ▸ hq)]
          rw [this, ← List.sum_map_mul_left]
        rw [hval]
        by_cases hw : 0 < ((h :: t).map fun q => 1 / max q.d2 (1/100)).sum
        · rw [if_pos hw, mul_div_assoc, div_self (ne_of_gt hw), mul_one]
        · rw [if_neg hw]
          exact hzh

theorem interp_single (x y : ℚ) (p : Pt) :
    geologicalInterpolation x y [p] = p.z :=
  interp_const x y p.z [p] (by simp) (by simp)

theorem filter_bind_of_false {α β : Type} (p : β → Bool) (q : α → Bool)
    (f : α → List β) :
    ∀ l : List α, (∀ a ∈ l, q a = false → ∀ b ∈ f a, p b = false) →
      (l.bind f).filter p = (l.filter q).bind fun a => (f a).filter p := by
  intro l
  induction l with
  | nil => intro _; rfl
  | cons a t ih =>
    intro h
    have ht := fun b hb => h b (List.mem_cons_of_mem a hb)
    show List.filter p (f a ++ t.bind f) = _
    rw [List.filter_append, ih ht]
    by_cases hq : q a = true
    · rw [List.filter_cons_of_pos hq]
      show _ = (f a).filter p ++ (List.filter q t).bind fun a => (f a).filter p
      rfl
    · have hq0 : q a = false := by
        cases hqa : q a
        · rfl
        · exact absurd hqa hq
      have hfa : (f a).filter p = [] := by
        apply List.filter_eq_nil.mpr
        intro b hb
        simp [h a (List.mem_cons_self a t) hq0 b hb]
      rw [List.filter_cons_of_neg (by simp [hq0]), hfa, List.nil_append]

theorem cellsAtPosition_coords (O : Oracle) (top bottom : List Pt)
    (faults : List FaultSystem) (numLayers : ℕ) (spacing x y : ℚ) :
    ∀ c ∈ cellsAtPosition O top bottom faults numLayers spacing x y,
      c.x = round2 x ∧ c.y = round2 y := by
  intro c hc
  unfold cellsAtPosition at hc
  by_cases h : geologicalInterpolation x y top ≤ geologicalInterpolation x y bottom
  · rw [if_pos h] at hc
    cases hc
  · rw [if_neg h] at hc
    rcases List.mem_map.mp hc with ⟨k, _, rfl⟩
    exact ⟨rfl, rfl⟩

theorem cellsAtPosition_skip (O : Oracle) (top bottom : List Pt)
    (faults : List FaultSystem) (numLayers : ℕ) (spacing x y : ℚ)
    (h : geologicalInterpolation x y top ≤ geologicalInterpolation x y bottom) :
    cellsAtPosition O top bottom faults numLayers spacing x y = [] := by
  unfold cellsAtPosition
  rw [if_pos h]

theorem latticeQ_mem (lo hi step a : ℚ) (h : a ∈ latticeQ lo hi step) :
    ∃ k : ℕ, a = lo + (k : ℚ) * step ∧ (k : ℤ) ≤ ⌊(hi - lo) / step⌋ := by
  unfold latticeQ at h
  by_cases hc : 0 < step ∧ lo ≤ hi
  · rw [if_pos hc] at h
    rcases List.mem_map.mp h with ⟨k, hk, rfl⟩
    refine ⟨k, rfl, ?_⟩
    have hk2 : k < ⌊(hi - lo) / step⌋.toNat + 1 := List.mem_range.mp hk
    have hk3 : k ≤ ⌊(hi - lo) / step⌋.toNat := Nat.lt_succ_iff.mp hk2
    have h0 : (0 : ℤ) ≤ ⌊(hi - lo) / step⌋ := by
      apply Int.floor_nonneg.mpr
      apply div_nonneg (by linarith [hc.2]) (le_of_lt hc.1)
    omega
  · rw [if_neg hc] at h
    cases h

theorem latticeQ_head (lo hi step : ℚ) (h1 : 0 < step) (h2 : lo ≤ hi) :
    lo ∈ latticeQ lo hi step := by
  unfold latticeQ
  rw [if_pos ⟨h1, h2⟩]
  refine List.mem_map.mpr ⟨0, ?_, by simp⟩
  simp

theorem dist2_nonneg (x y : ℚ) (p : Pt) : 0 ≤ dist2 x y p :=
  add_nonneg (sq_nonneg _) (sq_nonneg _)

theorem dist2_self_zero (x y : ℚ) (p : Pt) (hx : p.x = x) (hy : p.y = y) :
    dist2 x y p = 0 := by
  rw [dist2, hx, hy]
  ring

theorem dist2_eq_zero_coords (x y : ℚ) (q : Pt) (h : dist2 x y q = 0) :
    q.x = x ∧ q.y = y := by
  rw [dist2] at h
  have h1 : (x - q.x) ^ 2 = 0 := by
    nlinarith [sq_nonneg (x - q.x), sq_nonneg (y - q.y)]
  have h2 : (y - q.y) ^ 2 = 0 := by
    nlinarith [sq_nonneg (x - q.x), sq_nonneg (y - q.y)]
  have e1 := sub_eq_zero.mp (sq_eq_zero_iff.mp h1)
  have e2 := sub_eq_zero.mp (sq_eq_zero_iff.mp h2)
  exact ⟨e1.symm, e2.symm⟩

theorem interp_exact (x y : ℚ) (pts : List Pt) (p : Pt) (hmem : p ∈ pts)
    (hx : p.x = x) (hy : p.y = y)
    (huniq : ∀ q ∈ pts, q.x = x → q.y = y → q = p) :
    geologicalInterpolation x y pts = p.z := by
  cases pts with
  | nil => cases hmem
  | cons p0 rest =>
    unfold geologicalInterpolation
    simp only []
    set tagged := (p0 :: rest).map fun q => DPt.mk q (dist2 x y q) with htagged
    have hperm : List.Perm (List.insertionSort dptLE tagged) tagged :=
      List.perm_insertionSort dptLE tagged
    have hsorted : List.Sorted dptLE (List.insertionSort dptLE tagged) :=
      List.sorted_insertionSort dptLE tagged
    match hs : List.insertionSort dptLE tagged with
    | [] =>
      exfalso
      have hlen := hperm.length_eq
      rw [hs, htagged] at hlen
      simp at hlen
    | h :: t =>
      rw [hs] at hperm hsorted
      have htp : DPt.mk p 0 ∈ tagged := by
        rw [htagged]
        exact List.mem_map.mpr ⟨p, hmem, by rw [dist2_self_zero x y p hx hy]⟩
      have htp2 : DPt.mk p 0 ∈ h :: t := hperm.mem_iff.mpr htp
      have hhd_le : h.d2 ≤ 0 := by
        rcases List.mem_cons.mp htp2 with heq | hmem2
        · exact le_of_eq (by rw [← heq])
        · exact (List.sorted_cons.mp hsorted).1 _ hmem2
      have hh_tag : h ∈ tagged := hperm.mem_iff.mp (List.mem_cons_self h t)
      rcases List.mem_map.mp (htagged ▸ hh_tag) with ⟨q, hq, hqe⟩
      have hd2q : dist2 x y q = h.d2 := by rw [← hqe]
      have hq0 : dist2 x y q = 0 :=
        le_antisymm (hd2q ▸ hhd_le) (dist2_nonneg x y q)
      obtain ⟨hqx, hqy⟩ := dist2_eq_zero_coords x y q hq0
      have hqp : q = p := huniq q hq hqx hqy
      have hpz : h.pt.z = p.z := by rw [← hqe, hqp]
      have hd0 : h.d2 = 0 := by rw [← hd2q, hq0]
      have hmin : min 6 (p0 :: rest).length = Nat.succ (min 5 rest.length) := by
        simp [List.length_cons, Nat.succ_min_succ]
      rw [hmin, List.take_succ_cons]
      have hdlt : h.d2 < 1 := by rw [hd0]; norm_num
      simp only [if_pos hdlt, hpz]

theorem build_ok (O : Oracle) (gid : String) (n : ℕ) (h0 h1 : Horizon)
    (rest : List Horizon) (fd : List FaultSystem) (nL : ℕ) :
    ∃ g, generateGeologicalGrid O gid n (h0 :: h1 :: rest) fd nL = Except.ok g ∧
      g.points = buildCells O h0 h1 fd nL ∧
      g.pointCount = (buildCells O h0 h1 fd nL).length ∧
      g.bounds = buildBounds h0 h1 ∧
      g.layerCount = nL + 2 ∧
      g.totalVolume = (jsRound (buildRawVolume h0 h1 nL) : ℚ) :=
  ⟨_, rfl, rfl, rfl, rfl, rfl, rfl⟩

theorem jsRound_hundred : jsRound 100 = 100 := by
  have h := jsRound_intCast 100
  simpa using h

theorem canCombineGrids_self (A : Grid)
    (hx : A.bounds.xMin ≤ A.bounds.xMax) (hy : A.bounds.yMin ≤ A.bounds.yMax)
    (hz : A.bounds.zMin ≤ A.bounds.zMax) :
    canCombineGrids [A, A] =
      ⟨true, "Compatible grids", [], some 100⟩ := by
  have hbm : boundsMismatch A A = false := by
    unfold boundsMismatch
    rw [if_neg]
    push_neg
    refine ⟨?_, ?_, ?_⟩ <;>
    · simp only [sub_self, abs_zero, max_self]
      apply mul_nonneg (by linarith) (by norm_num)
  unfold canCombineGrids
  simp only [List.filterMap, hbm, natMax, natMin, List.map_cons, List.map_nil,
    List.foldl_cons, List.foldl_nil, Nat.max_self, Nat.min_self, Nat.sub_self,
    List.length_cons, List.length_nil, List.sum_cons, List.sum_nil]
  norm_num
  exact jsRound_hundred

theorem jsRound_score (n : ℕ) :
    jsRound ((100 : ℚ) - (n : ℚ) * 20) = 100 - 20 * (n : ℤ) := by
  rw [show ((100 : ℚ) - (n : ℚ) * 20) = (((100 - 20 * (n : ℤ)) : ℤ) : ℚ) by
    push_cast; ring]
  exact jsRound_intCast _

theorem canCombineGrids_score_formula (a b : Grid) (t : List Grid) :
    (canCombineGrids (a :: b :: t)).compatibilityScore =
      some (100 - 20 * (((canCombineGrids (a :: b :: t)).details.length : ℤ))) := by
  unfold canCombineGrids
  simp only []
  rw [jsRound_score]

/-! ## Concrete fixtures for witnesses and counterexamples -/

/-- A sample cell. -/
def cellA : Cell :=
  { x := 0, y := 0, z := 50, layer := 0, bulkVolume := 1, faultFlag := 0,
    wellPath := 0, porosity := 0, permeability := 1, structuralDip := 0 }

/-- A sample cell whose x is the minimum cell x of `gridB`. -/
def cellB : Cell := { cellA with x := 50 }

/-- A sample grid with x-extent 0 to 1000. -/
def gridA : Grid :=
  { id := "A", name := "A", points := [cellA], totalVolume := 10,
    layerCount := 5, pointCount := 1, bounds := ⟨0, 1000, 0, 100, 0, 100⟩ }

/-- A sample grid compatible with `gridA` whose cells and bounds start at
x = 50 (within the 10% tolerance of `gridA`). -/
def gridB : Grid :=
  { id := "B", name := "B", points := [cellB], totalVolume := 20,
    layerCount := 5, pointCount := 1, bounds := ⟨50, 1050, 0, 100, 0, 100⟩ }

theorem gridA_self_compat : (canCombineGrids [gridA, gridA]).canCombine = true := by
  rw [canCombineGrids_self gridA (by norm_num [gridA]) (by norm_num [gridA])
    (by norm_num [gridA])]

theorem boundsMismatch_AB : boundsMismatch gridA gridB = false := by
  unfold boundsMismatch
  rw [if_neg]
  push_neg
  refine ⟨?_, ?_, ?_⟩ <;> norm_num [gridA, gridB]

theorem gridAB_compat : (canCombineGrids [gridA, gridB]).canCombine = true := by
  unfold canCombineGrids
  simp only [List.filterMap, boundsMismatch_AB, natMax, natMin, List.map_cons,
    List.map_nil, List.foldl_cons, List.foldl_nil, List.length_cons,
    List.length_nil, List.sum_cons, List.sum_nil]
  norm_num [gridA, gridB]

/-- First grid of the compatibility-symmetry counterexample: x-extent 100. -/
def gridS1 : Grid :=
  { id := "S1", name := "S1", points := [], totalVolume := 0,
    layerCount := 5, pointCount := 1, bounds := ⟨0, 100, 0, 100, 0, 100⟩ }

/-- Second grid of the compatibility-symmetry counterexample: x-extent 111,
so its xMax differs from `gridS1` by 11 — more than 10% of `gridS1`'s
extent but less than 10% of its own. -/
def gridS2 : Grid :=
  { id := "S2", name := "S2", points := [], totalVolume := 0,
    layerCount := 5, pointCount := 1, bounds := ⟨0, 111, 0, 100, 0, 100⟩ }

theorem boundsMismatch_S1S2 : boundsMismatch gridS1 gridS2 = true := by
  unfold boundsMismatch
  rw [if_pos]
  left
  norm_num [gridS1, gridS2]

theorem boundsMismatch_S2S1 : boundsMismatch gridS2 gridS1 = false := by
  unfold boundsMismatch
  rw [if_neg]
  push_neg
  refine ⟨?_, ?_, ?_⟩ <;> norm_num [gridS1, gridS2]

theorem canCombine_S1S2 : (canCombineGrids [gridS1, gridS2]).canCombine = false := by
  unfold canCombineGrids
  simp [List.filterMap, boundsMismatch_S1S2]

theorem canCombine_S2S1 : (canCombineGrids [gridS2, gridS1]).canCombine = true := by
  unfold canCombineGrids
  simp only [List.filterMap, boundsMismatch_S2S1, natMax, natMin, List.map_cons,
    List.map_nil, List.foldl_cons, List.foldl_nil, List.length_cons,
    List.length_nil, List.sum_cons, List.sum_nil]
  norm_num [gridS1, gridS2]

theorem mergeCellB_x :
    (mergeCell MergeDir.horizontal 1 gridB [gridA.bounds, gridB.bounds] cellB).x =
      1050 := by
  norm_num [mergeCell, calculateOffset, sumWidths, gridA, gridB, cellB, cellA]

theorem mergeCellA_x :
    (mergeCell MergeDir.horizontal 0 gridA [gridA.bounds, gridB.bounds] cellA).x =
      0 := by
  norm_num [mergeCell, calculateOffset, sumWidths, gridA, cellA]

theorem mergedAB_points :
    (mergedGrid [gridA, gridB] MergeDir.horizontal).points =
      [mergeCell MergeDir.horizontal 0 gridA [gridA.bounds, gridB.bounds] cellA,
       mergeCell MergeDir.horizontal 1 gridB [gridA.bounds, gridB.bounds] cellB] := by
  unfold mergedGrid
  simp only [List.enum, List.enumFrom, List.map_cons, List.map_nil,
    List.cons_bind, List.nil_bind, List.append_nil]
  have hgA : gridA.points = [cellA] := rfl
  have hgB : gridB.points = [cellB] := rfl
  rw [hgA, hgB]
  simp only [List.map_cons, List.map_nil]
  have h01 : cellXLE
      (mergeCell MergeDir.horizontal 0 gridA [gridA.bounds, gridB.bounds] cellA)
      (mergeCell MergeDir.horizontal 1 gridB [gridA.bounds, gridB.bounds] cellB) := by
    unfold cellXLE
    rw [mergeCellA_x, mergeCellB_x]
    norm_num
  simp only [List.insertionSort, List.orderedInsert, if_pos h01]

/-! ## Claims -/

/-- C10: for every query point such that no fault trace point of any fault
system lies strictly within the influence radius (in particular when the
fault system list is empty), `calculateAdvancedFaultInfluence` — in both
the inline (radius 120) and utils (radius 100) variants — returns
influence 0, faultFlag 0 and displacement exactly 0, regardless of the
pseudo-random draw and of the exponential kernel. Distances are compared
through their squares (`d < r ↔ d² < r²` for `r > 0`). -/
theorem C10_no_fault_in_radius :
    (∀ (expK : ℚ → ℚ) (rand : ℚ) (faults : List FaultSystem) (x y z : ℚ),
      (∀ f ∈ faults, ∀ p ∈ f.points, ¬ dist3sq x y z p < 120 ^ 2) →
      calculateAdvancedFaultInfluence expK rand faults x y z = ⟨0, 0, 0⟩) ∧
    (∀ (expK : ℚ → ℚ) (rand : ℚ) (faults : List FaultSystem) (x y z : ℚ),
      (∀ f ∈ faults, ∀ p ∈ f.points, ¬ dist3sq x y z p < 100 ^ 2) →
      calculateAdvancedFaultInfluenceU expK rand faults x y z = ⟨0, 0, 0⟩) := by
  constructor
  · intro expK rand faults x y z h
    exact faultInfluenceCore_outside expK 120 (8/100) 60 rand faults x y z h
  · intro expK rand faults x y z h
    exact faultInfluenceCore_outside expK 100 (1/10) 50 rand faults x y z h

/-- Witness for C10 at the empty fault list and an identity kernel. -/
theorem C10_no_fault_in_radius_witness :
    (∀ f ∈ ([] : List FaultSystem), ∀ p ∈ f.points,
      ¬ dist3sq 1 2 3 p < 120 ^ 2) ∧
    calculateAdvancedFaultInfluence (fun d => d) (1/3) [] 1 2 3 = ⟨0, 0, 0⟩ ∧
    calculateAdvancedFaultInfluenceU (fun d => d) (1/3) [] 1 2 3 = ⟨0, 0, 0⟩ :=
  ⟨fun f hf => absurd hf (List.not_mem_nil f),
   C10_no_fault_in_radius.1 (fun d => d) (1/3) [] 1 2 3
     (fun f hf => absurd hf (List.not_mem_nil f)),
   C10_no_fault_in_radius.2 (fun d => d) (1/3) [] 1 2 3
     (fun f hf => absurd hf (List.not_mem_nil f))⟩

/-- C8: invoked with fewer than two horizons, the builder fails with the
typed `insufficientInput` error (the JS code alerts and returns without a
grid) and performs no mutation: no grid is produced and the registered
grid collection is left unchanged. -/
theorem C8_insufficient_input (O : Oracle) (gid : String) (n : ℕ)
    (horizonData : List Horizon) (fd : List FaultSystem) (nL : ℕ)
    (h : horizonData.length < 2) :
    generateGeologicalGrid O gid n horizonData fd nL =
      Except.error BuildError.insufficientInput ∧
    ∀ state : List Grid, registerBuild state O gid horizonData fd nL = state := by
  cases horizonData with
  | nil => exact ⟨rfl, fun st => rfl⟩
  | cons a tail =>
    cases tail with
    | nil => exact ⟨rfl, fun st => rfl⟩
    | cons b t2 =>
      exfalso
      simp only [List.length_cons] at h
      omega

/-- Witness for C8 with the empty horizon list. -/
theorem C8_insufficient_input_witness :
    ([] : List Horizon).length < 2 ∧
    generateGeologicalGrid trivOracle "g" 0 [] [] 3 =
      Except.error BuildError.insufficientInput ∧
    registerBuild [gridA] trivOracle "g" [] [] 3 = [gridA] :=
  ⟨by norm_num,
   (C8_insufficient_input trivOracle "g" 0 [] [] 3 (by norm_num)).1,
   (C8_insufficient_input trivOracle "g" 0 [] [] 3 (by norm_num)).2 [gridA]⟩

/-- C9: at every sampling position where the interpolated top elevation is
less than or equal to the interpolated bottom elevation, the builder emits
zero cells and contributes zero volume, and no error is raised: with at
least two horizons the build always succeeds, its cell list is the
concatenation of the per-position stacks (so other positions are
unaffected), and `pointCount` counts exactly the emitted cells. -/
theorem C9_degenerate_skip :
    (∀ (O : Oracle) (top bottom : List Pt) (faults : List FaultSystem)
        (nL : ℕ) (sp x y : ℚ),
      geologicalInterpolation x y top ≤ geologicalInterpolation x y bottom →
      cellsAtPosition O top bottom faults nL sp x y = [] ∧
      posRawVolume top bottom nL sp x y = 0) ∧
    (∀ (O : Oracle) (gid : String) (n : ℕ) (h0 h1 : Horizon)
        (rest : List Horizon) (fd : List FaultSystem) (nL : ℕ),
      ∃ g, generateGeologicalGrid O gid n (h0 :: h1 :: rest) fd nL =
          Except.ok g ∧
        g.points = ((buildXs h0 h1).bind fun x => (buildYs h0 h1).bind fun y =>
          cellsAtPosition O h0.points h1.points fd nL (buildSpacing h0 h1) x y) ∧
        g.pointCount = g.points.length) := by
  constructor
  · intro O top bottom faults nL sp x y h
    refine ⟨cellsAtPosition_skip O top bottom faults nL sp x y h, ?_⟩
    unfold posRawVolume
    rw [if_pos h]
  · intro O gid n h0 h1 rest fd nL
    exact ⟨_, rfl, rfl, rfl⟩

/-- Witness for C9: a single-point top horizon at depth 900 below a
single-point base horizon at 1000 — the position is skipped silently. -/
theorem C9_degenerate_skip_witness :
    (geologicalInterpolation 0 0 [Pt.mk 0 0 900] ≤
      geologicalInterpolation 0 0 [Pt.mk 0 0 1000]) ∧
    cellsAtPosition trivOracle [Pt.mk 0 0 900] [Pt.mk 0 0 1000] [] 3 1 0 0 = [] ∧
    posRawVolume [Pt.mk 0 0 900] [Pt.mk 0 0 1000] 3 1 0 0 = 0 := by
  have hle : geologicalInterpolation 0 0 [Pt.mk 0 0 900] ≤
      geologicalInterpolation 0 0 [Pt.mk 0 0 1000] := by
    rw [interp_single 0 0 (Pt.mk 0 0 900), interp_single 0 0 (Pt.mk 0 0 1000)]
    norm_num
  have h := (C9_degenerate_skip.1 trivOracle [Pt.mk 0 0 900] [Pt.mk 0 0 1000]
    [] 3 1 0 0) hle
  exact ⟨hle, h.1, h.2⟩

/-- C2: for every list of compatible grids and both merge directions, the
merged grid's `totalVolume` is the sum of the sources' `totalVolume`
values and its `pointCount` is the sum of the sources' `pointCount`
values. -/
theorem C2_merge_conserves_totals (gs : List Grid) (dir : MergeDir)
    (h : (canCombineGrids gs).canCombine = true) :
    ∃ g, combineGrids gs dir = some g ∧
      g.totalVolume = (gs.map Grid.totalVolume).sum ∧
      g.pointCount = (gs.map Grid.pointCount).sum := by
  refine ⟨mergedGrid gs dir, ?_, rfl, rfl⟩
  unfold combineGrids
  rw [if_pos h]

/-- Witness for C2 on two concrete compatible grids, merged vertically. -/
theorem C2_merge_conserves_totals_witness :
    (canCombineGrids [gridA, gridA]).canCombine = true ∧
    ∃ g, combineGrids [gridA, gridA] MergeDir.vertical = some g ∧
      g.totalVolume = ([gridA, gridA].map Grid.totalVolume).sum ∧
      g.pointCount = ([gridA, gridA].map Grid.pointCount).sum :=
  ⟨gridA_self_compat,
   C2_merge_conserves_totals [gridA, gridA] MergeDir.vertical gridA_self_compat⟩

/-- C7: for every list of two or more grids the compatibility score equals
`100 - 20·(number of mismatch reasons)`, with no clamping below zero: with
six or more reasons the score is negative. -/
theorem C7_score_formula (gs : List Grid) (h : 2 ≤ gs.length) :
    (canCombineGrids gs).compatibilityScore =
      some (100 - 20 * ((canCombineGrids gs).details.length : ℤ)) ∧
    (6 ≤ (canCombineGrids gs).details.length →
      100 - 20 * ((canCombineGrids gs).details.length : ℤ) < 0) := by
  cases gs with
  | nil => simp at h
  | cons a t =>
    cases t with
    | nil => simp at h
    | cons b t2 =>
      refine ⟨canCombineGrids_score_formula a b t2, ?_⟩
      intro h6
      have h7 : (6 : ℤ) ≤ ((canCombineGrids (a :: b :: t2)).details.length : ℤ) := by
        exact_mod_cast h6
      linarith

/-- Witness for C7 on a concrete pair of grids. -/
theorem C7_score_formula_witness :
    2 ≤ ([gridA, gridB] : List Grid).length ∧
    ((canCombineGrids [gridA, gridB]).compatibilityScore =
      some (100 - 20 * ((canCombineGrids [gridA, gridB]).details.length : ℤ)) ∧
    (6 ≤ (canCombineGrids [gridA, gridB]).details.length →
      100 - 20 * ((canCombineGrids [gridA, gridB]).details.length : ℤ) < 0)) :=
  ⟨by norm_num, C7_score_formula [gridA, gridB] (by norm_num)⟩

/-- C3 counterexample: compatibility is NOT symmetric. `gridS1` has
x-extent 100 and `gridS2` x-extent 111 (all other bounds, layer and point
counts equal); the bounds tolerance is always computed from the FIRST
grid's extent, so `check([S1,S2])` fails the 10%-of-100 tolerance while
`check([S2,S1])` passes the 10%-of-111 tolerance. -/
theorem C3_symmetry_counterexample :
    (canCombineGrids [gridS1, gridS2]).canCombine = false ∧
    (canCombineGrids [gridS2, gridS1]).canCombine = true ∧
    (canCombineGrids [gridS1, gridS2]).canCombine ≠
      (canCombineGrids [gridS2, gridS1]).canCombine := by
  refine ⟨canCombine_S1S2, canCombine_S2S1, ?_⟩
  rw [canCombine_S1S2, canCombine_S2S1]
  simp

/-- C3 (amended): any grid with well-ordered bounds and at least one point
is compatible with an identical copy of itself: `canCombine` holds with
zero mismatch reasons and score 100. (The positivity hypothesis reflects
JS semantics: with all-zero point counts the JS variance is `NaN`, which
makes the real code report not-combinable despite zero reasons — an edge
the exact-rational model cannot represent.) -/
theorem C3_self_compatibility (A : Grid)
    (hx : A.bounds.xMin ≤ A.bounds.xMax) (hy : A.bounds.yMin ≤ A.bounds.yMax)
    (hz : A.bounds.zMin ≤ A.bounds.zMax) (_hp : 0 < A.pointCount) :
    (canCombineGrids [A, A]).canCombine = true ∧
    (canCombineGrids [A, A]).details = [] ∧
    (canCombineGrids [A, A]).compatibilityScore = some 100 := by
  rw [canCombineGrids_self A hx hy hz]
  exact ⟨rfl, rfl, rfl⟩

/-- Witness for the amended C3 on a concrete grid. -/
theorem C3_self_compatibility_witness :
    (gridA.bounds.xMin ≤ gridA.bounds.xMax ∧
      gridA.bounds.yMin ≤ gridA.bounds.yMax ∧
      gridA.bounds.zMin ≤ gridA.bounds.zMax ∧ 0 < gridA.pointCount) ∧
    (canCombineGrids [gridA, gridA]).canCombine = true ∧
    (canCombineGrids [gridA, gridA]).details = [] ∧
    (canCombineGrids [gridA, gridA]).compatibilityScore = some 100 :=
  ⟨⟨by norm_num [gridA], by norm_num [gridA], by norm_num [gridA],
    by norm_num [gridA]⟩,
   C3_self_compatibility gridA (by norm_num [gridA]) (by norm_num [gridA])
     (by norm_num [gridA]) (by norm_num [gridA])⟩

/-- The exact-match point of the C6 counterexample. -/
def ptP : Pt := ⟨0, 0, 0⟩

/-- A second horizon point three units away with elevation 9. -/
def ptQ : Pt := ⟨0, 3, 9⟩

theorem interpU_eval : geologicalInterpolationU 0 0 [ptP, ptQ] = 9/10 := by
  have hdP : dist2 0 0 ptP = 0 := by norm_num [dist2, ptP]
  have hdQ : dist2 0 0 ptQ = 9 := by norm_num [dist2, ptQ]
  unfold geologicalInterpolationU
  simp only [List.map_cons, List.map_nil, hdP, hdQ]
  have hle : dptLE (DPt.mk ptP 0) (DPt.mk ptQ 9) := by unfold dptLE; norm_num
  simp only [List.insertionSort, List.orderedInsert, if_pos hle]
  norm_num [List.take, List.length_cons, ptP, ptQ]

/-- C6 counterexample: the `analysisUtils` interpolation variant (which
floors distances at 1 and has no exact-match short-circuit) does NOT
return `p.z` at `(p.x, p.y)` even when `p` is the unique nearest sample at
distance 0: with `p = (0,0,0)` and a second point `(0,3,9)` it returns the
inverse-distance blend `9/10` instead of `0`. -/
theorem C6_counterexample :
    ptP ∈ [ptP, ptQ] ∧ dist2 ptP.x ptP.y ptP = 0 ∧
    (∀ q ∈ [ptP, ptQ], q.x = ptP.x → q.y = ptP.y → q = ptP) ∧
    geologicalInterpolationU ptP.x ptP.y [ptP, ptQ] = 9/10 ∧
    (9/10 : ℚ) ≠ ptP.z := by
  refine ⟨List.mem_cons_self ptP [ptQ], dist2_self_zero _ _ _ rfl rfl, ?_, ?_, ?_⟩
  · intro q hq hqx hqy
    rcases List.mem_cons.mp hq with rfl | hq2
    · rfl
    · rcases List.mem_cons.mp hq2 with rfl | h3
      · exfalso
        rw [show ptQ.y = 3 from rfl, show ptP.y = 0 from rfl] at hqy
        norm_num at hqy
      · cases h3
  · rw [show ptP.x = 0 from rfl, show ptP.y = 0 from rfl]
    exact interpU_eval
  · rw [show ptP.z = 0 from rfl]
    norm_num

/-- C6 (amended): interpolation exactness holds for the inline
`Geological3DGridTool` variant, which has the sub-unit exact-match
short-circuit: for every horizon point `p` that is the unique sample at
the query location `(p.x, p.y)`, `geologicalInterpolation` returns `p.z`
exactly. (The utils variant without the short-circuit violates this, see
the counterexample.) -/
theorem C6_exact_match_inline (x y : ℚ) (pts : List Pt) (p : Pt)
    (hmem : p ∈ pts) (hx : p.x = x) (hy : p.y = y)
    (huniq : ∀ q ∈ pts, q.x = x → q.y = y → q = p) :
    geologicalInterpolation x y pts = p.z :=
  interp_exact x y pts p hmem hx hy huniq

/-- Witness for the amended C6 on a concrete two-point horizon. -/
theorem C6_exact_match_inline_witness :
    (ptP ∈ [ptP, ptQ] ∧ ptP.x = 0 ∧ ptP.y = 0 ∧
      (∀ q ∈ [ptP, ptQ], q.x = 0 → q.y = 0 → q = ptP)) ∧
    geologicalInterpolation 0 0 [ptP, ptQ] = ptP.z := by
  have huniq : ∀ q ∈ [ptP, ptQ], q.x = 0 → q.y = 0 → q = ptP := by
    intro q hq hqx hqy
    rcases List.mem_cons.mp hq with rfl | hq2
    · rfl
    · rcases List.mem_cons.mp hq2 with rfl | h3
      · exfalso
        rw [show ptQ.y = 3 from rfl] at hqy
        norm_num at hqy
      · cases h3
  exact ⟨⟨List.mem_cons_self ptP [ptQ], rfl, rfl, huniq⟩,
    C6_exact_match_inline 0 0 [ptP, ptQ] ptP (List.mem_cons_self ptP [ptQ])
      rfl rfl huniq⟩

theorem sumWidths_eq (allB : List Bounds) (i : ℕ) :
    sumWidths allB i = ((allB.take i).map fun b => b.xMax - b.xMin).sum := by
  induction allB generalizing i with
  | nil => cases i <;> simp [sumWidths]
  | cons b bs ih =>
    cases i with
    | zero => simp [sumWidths]
    | succ n => simp [sumWidths, List.take_succ_cons, ih]

theorem mergeCell_gridIndex (dir : MergeDir) (i : ℕ) (src : Grid)
    (allB : List Bounds) (c : Cell) :
    (mergeCell dir i src allB c).gridIndex = i := rfl

theorem mergeCell_horizontal_coords (i : ℕ) (src : Grid) (allB : List Bounds)
    (c : Cell) :
    (mergeCell MergeDir.horizontal i src allB c).x =
      c.x + ((allB.take i).map fun b => b.xMax - b.xMin).sum ∧
    (mergeCell MergeDir.horizontal i src allB c).y = c.y ∧
    (mergeCell MergeDir.horizontal i src allB c).z = c.z := by
  unfold mergeCell calculateOffset
  simp [sumWidths_eq]

theorem mergedGrid_points_perm (gs : List Grid) (dir : MergeDir) :
    List.Perm (mergedGrid gs dir).points
      (gs.enum.bind fun gi => gi.2.points.map
        (mergeCell dir gi.1 gi.2 (gs.map Grid.bounds))) := by
  cases dir
  · exact List.perm_insertionSort cellZLE _
  · exact List.perm_insertionSort cellXLE _

/-- C5 (amended): in a horizontal merge every cell of grid number `i` is
translated in x by the sum of the widths (`xMax - xMin`) of the preceding
grids with y and z unchanged; consequently the second grid's minimum cell
x after the merge is its own minimum cell x plus the first grid's width —
which equals the first grid's width (1000 in the scenario) exactly when
the second grid's cells start at x = 0, but not in general (see the
counterexample). The merged cell list is the sorted rearrangement of all
translated source cells. -/
theorem C5_horizontal_offsets (gs : List Grid)
    (h : (canCombineGrids gs).canCombine = true) :
    ∃ g, combineGrids gs MergeDir.horizontal = some g ∧
      List.Perm g.points (gs.enum.bind fun gi => gi.2.points.map
        (mergeCell MergeDir.horizontal gi.1 gi.2 (gs.map Grid.bounds))) ∧
      (∀ (i : ℕ) (src : Grid) (c : Cell) (allB : List Bounds),
        (mergeCell MergeDir.horizontal i src allB c).x =
          c.x + ((allB.take i).map fun b => b.xMax - b.xMin).sum ∧
        (mergeCell MergeDir.horizontal i src allB c).y = c.y ∧
        (mergeCell MergeDir.horizontal i src allB c).z = c.z) := by
  refine ⟨mergedGrid gs MergeDir.horizontal, ?_, ?_, ?_⟩
  · unfold combineGrids
    rw [if_pos h]
  · exact mergedGrid_points_perm gs MergeDir.horizontal
  · intro i src c allB
    exact mergeCell_horizontal_coords i src allB c

/-- Witness for the amended C5 on two concrete compatible grids. -/
theorem C5_horizontal_offsets_witness :
    (canCombineGrids [gridA, gridB]).canCombine = true ∧
    ∃ g, combineGrids [gridA, gridB] MergeDir.horizontal = some g ∧
      List.Perm g.points ([gridA, gridB].enum.bind fun gi => gi.2.points.map
        (mergeCell MergeDir.horizontal gi.1 gi.2
          ([gridA, gridB].map Grid.bounds))) ∧
      (∀ (i : ℕ) (src : Grid) (c : Cell) (allB : List Bounds),
        (mergeCell MergeDir.horizontal i src allB c).x =
          c.x + ((allB.take i).map fun b => b.xMax - b.xMin).sum ∧
        (mergeCell MergeDir.horizontal i src allB c).y = c.y ∧
        (mergeCell MergeDir.horizontal i src allB c).z = c.z) :=
  ⟨gridAB_compat, C5_horizontal_offsets [gridA, gridB] gridAB_compat⟩

/-- C5 counterexample: grid A has x range 0–1000 and grid B (compatible,
x range 50–1050, its single cell at x = 50) is merged horizontally after
it; B's minimum cell x after the merge is 1050 = 50 + width(A), not
exactly 1000 as the claim states. -/
theorem C5_counterexample :
    gridA.bounds.xMin = 0 ∧ gridA.bounds.xMax = 1000 ∧
    (canCombineGrids [gridA, gridB]).canCombine = true ∧
    ∃ g, combineGrids [gridA, gridB] MergeDir.horizontal = some g ∧
      ((g.points.filter fun c => c.gridIndex == 1).map Cell.x) = [1050] ∧
      ((g.points.filter fun c => c.gridIndex == 1).map Cell.x) ≠ [1000] := by
  refine ⟨rfl, rfl, gridAB_compat, mergedGrid [gridA, gridB] MergeDir.horizontal,
    ?_, ?_, ?_⟩
  · unfold combineGrids
    rw [if_pos gridAB_compat]
  · rw [mergedAB_points]
    rw [List.filter_cons_of_neg (by simp [mergeCell_gridIndex]),
      List.filter_cons_of_pos (by simp [mergeCell_gridIndex])]
    simp only [List.filter_nil, List.map_cons, List.map_nil, mergeCellB_x]
  · rw [mergedAB_points]
    rw [List.filter_cons_of_neg (by simp [mergeCell_gridIndex]),
      List.filter_cons_of_pos (by simp [mergeCell_gridIndex])]
    simp only [List.filter_nil, List.map_cons, List.map_nil, mergeCellB_x]
    intro hcontra
    have := List.cons.injEq (1050 : ℚ) [] (1000 : ℚ) [] ▸ hcontra
    simp at hcontra

theorem qMin_eq_of (l : List ℚ) (v : ℚ) (hmem : v ∈ l)
    (hall : ∀ a ∈ l, v ≤ a) : qMin l = v := by
  have hne : l ≠ [] := List.ne_nil_of_mem hmem
  exact le_antisymm (qMin_le l v hmem) (hall _ (qMin_mem l hne))

theorem qMax_eq_of (l : List ℚ) (v : ℚ) (hmem : v ∈ l)
    (hall : ∀ a ∈ l, a ≤ v) : qMax l = v := by
  have hne : l ≠ [] := List.ne_nil_of_mem hmem
  exact le_antisymm (hall _ (qMax_mem l hne)) (le_qMax l v hmem)

theorem cellsAtPosition_ne_nil (O : Oracle) (top bottom : List Pt)
    (faults : List FaultSystem) (numLayers : ℕ) (spacing x y : ℚ)
    (h : ¬ geologicalInterpolation x y top ≤ geologicalInterpolation x y bottom) :
    cellsAtPosition O top bottom faults numLayers spacing x y ≠ [] := by
  unfold cellsAtPosition
  rw [if_neg h]
  simp

theorem bind_ne_nil_of_mem {α β : Type} (l : List α) (f : α → List β) (a : α)
    (ha : a ∈ l) (hf : f a ≠ []) : l.bind f ≠ [] := by
  rcases List.exists_mem_of_ne_nil (f a) hf with ⟨b, hb⟩
  exact List.ne_nil_of_mem (List.mem_bind.mpr ⟨a, ha, hb⟩)

/-- Top horizon of the C1 counterexample: flat at z = 1000 with x-extent
91 and y-extent 90 (so spacing is 2 and the x lattice stops at 90 < 91). -/
def hTopC : Horizon := ⟨"TopC", [Pt.mk 0 0 1000, Pt.mk 91 90 1000]⟩

/-- Base horizon of the C1 counterexample: flat at z = 900. -/
def hBaseC : Horizon := ⟨"BaseC", [Pt.mk 0 0 900, Pt.mk 91 90 900]⟩

theorem buildBoundsC : buildBounds hTopC hBaseC = ⟨0, 91, 0, 90, 900, 1000⟩ := by
  unfold buildBounds buildAllPoints envelope
  rw [show hTopC.points = [Pt.mk 0 0 1000, Pt.mk 91 90 1000] from rfl,
    show hBaseC.points = [Pt.mk 0 0 900, Pt.mk 91 90 900] from rfl]
  simp only [List.cons_append, List.nil_append, List.map_cons, List.map_nil]
  unfold qMin qMax
  simp only [List.foldl_cons, List.foldl_nil]
  norm_num

theorem buildSpacingC : buildSpacing hTopC hBaseC = 2 := by
  unfold buildSpacing
  rw [buildBoundsC]
  norm_num

theorem interpC_top (x y : ℚ) : geologicalInterpolation x y hTopC.points = 1000 := by
  apply interp_const x y 1000
  · simp [hTopC]
  · intro p hp
    rcases List.mem_cons.mp hp with rfl | hp2
    · rfl
    · rcases List.mem_cons.mp hp2 with rfl | h3
      · rfl
      · cases h3

theorem interpC_base (x y : ℚ) : geologicalInterpolation x y hBaseC.points = 900 := by
  apply interp_const x y 900
  · simp [hBaseC]
  · intro p hp
    rcases List.mem_cons.mp hp with rfl | hp2
    · rfl
    · rcases List.mem_cons.mp hp2 with rfl | h3
      · rfl
      · cases h3

theorem buildXsC : buildXs hTopC hBaseC = latticeQ 0 91 2 := by
  unfold buildXs
  rw [buildBoundsC, buildSpacingC]

theorem buildYsC : buildYs hTopC hBaseC = latticeQ 0 90 2 := by
  unfold buildYs
  rw [buildBoundsC, buildSpacingC]

theorem cellsC_x_le (O : Oracle) :
    ∀ c ∈ buildCells O hTopC hBaseC [] 0, c.x ≤ 90 := by
  intro c hc
  unfold buildCells at hc
  rcases List.mem_bind.mp hc with ⟨x, hx, hc2⟩
  rcases List.mem_bind.mp hc2 with ⟨y, hy, hc3⟩
  have hcx := (cellsAtPosition_coords O hTopC.points hBaseC.points [] 0
    (buildSpacing hTopC hBaseC) x y c hc3).1
  rw [buildXsC] at hx
  rcases latticeQ_mem 0 91 2 x hx with ⟨k, hxe, hk⟩
  have hk45 : (k : ℤ) ≤ 45 := by
    have h45 : (⌊((91 : ℚ) - 0) / 2⌋ : ℤ) = 45 := by norm_num
    rw [h45] at hk
    exact hk
  have hxk : x = (((2 * k : ℕ)) : ℚ) := by
    rw [hxe]
    push_cast
    ring
  rw [hcx, hxk, round2_natCast]
  have hkq : (k : ℚ) ≤ 45 := by exact_mod_cast hk45
  push_cast
  linarith

/-- C1 counterexample: for the flat two-point horizons with x-extent 91
and y-extent 90 (sampling spacing 2), the built grid's stored
`bounds.xMax` is 91 — the envelope of the INPUT horizon points — while
every emitted cell has x ≤ 90, so no cell attains the stored bound and the
stored bounds are not the envelope of the grid's own cells. -/
theorem C1_counterexample :
    ∃ g, generateGeologicalGrid trivOracle "gC" 0 [hTopC, hBaseC] [] 0 =
        Except.ok g ∧
      g.bounds.xMax = 91 ∧ g.points ≠ [] ∧
      (∀ c ∈ g.points, c.x ≤ 90) ∧
      (∀ c ∈ g.points, c.x ≠ g.bounds.xMax) := by
  refine ⟨_, rfl, ?_, ?_, ?_, ?_⟩
  · show (buildBounds hTopC hBaseC).xMax = 91
    rw [buildBoundsC]
  · show buildCells trivOracle hTopC hBaseC [] 0 ≠ []
    unfold buildCells
    apply bind_ne_nil_of_mem _ _ 0
    · rw [buildXsC]
      exact latticeQ_head 0 91 2 (by norm_num) (by norm_num)
    · apply bind_ne_nil_of_mem _ _ 0
      · rw [buildYsC]
        exact latticeQ_head 0 90 2 (by norm_num) (by norm_num)
      · apply cellsAtPosition_ne_nil
        rw [interpC_top, interpC_base]
        norm_num
  · exact cellsC_x_le trivOracle
  · intro c hc
    have h1 := cellsC_x_le trivOracle c hc
    show c.x ≠ (buildBounds hTopC hBaseC).xMax
    rw [buildBoundsC]
    intro heq
    rw [heq] at h1
    norm_num at h1

theorem qMin_map_le {α : Type} (f : α → ℚ) (l : List α) (a : α) (h : a ∈ l) :
    qMin (l.map f) ≤ f a :=
  qMin_le _ _ (List.mem_map_of_mem f h)

theorem le_qMax_map {α : Type} (f : α → ℚ) (l : List α) (a : α) (h : a ∈ l) :
    f a ≤ qMax (l.map f) :=
  le_qMax _ _ (List.mem_map_of_mem f h)

theorem qMin_map_attained {α : Type} (f : α → ℚ) (l : List α) (h : l ≠ []) :
    ∃ a ∈ l, f a = qMin (l.map f) := by
  have hm : qMin (l.map f) ∈ l.map f := by
    apply qMin_mem
    simpa using h
  rcases List.mem_map.mp hm with ⟨a, ha, he⟩
  exact ⟨a, ha, he⟩

theorem qMax_map_attained {α : Type} (f : α → ℚ) (l : List α) (h : l ≠ []) :
    ∃ a ∈ l, f a = qMax (l.map f) := by
  have hm : qMax (l.map f) ∈ l.map f := by
    apply qMax_mem
    simpa using h
  rcases List.mem_map.mp hm with ⟨a, ha, he⟩
  exact ⟨a, ha, he⟩

theorem mergedGrid_bounds (gs : List Grid) (dir : MergeDir) :
    (mergedGrid gs dir).bounds =
      envelope ((mergedGrid gs dir).points.map Cell.x)
        ((mergedGrid gs dir).points.map Cell.y)
        ((mergedGrid gs dir).points.map Cell.z) := by
  cases dir <;> rfl

/-- C1 (amended): the bounds stored on a MERGED grid are the tight
axis-aligned envelope of its own (translated) cells; the bounds stored on
a BUILT grid are instead the tight envelope of the two INPUT horizons'
points — every input point lies within them and every extreme is attained
by an input point — and the counterexample shows those stored bounds need
not be attained by any emitted cell. -/
theorem C1_bounds_amended :
    (∀ (O : Oracle) (gid : String) (n : ℕ) (h0 h1 : Horizon)
        (rest : List Horizon) (fd : List FaultSystem) (nL : ℕ),
      ∃ g, generateGeologicalGrid O gid n (h0 :: h1 :: rest) fd nL =
          Except.ok g ∧
        g.bounds = buildBounds h0 h1 ∧
        (∀ p ∈ h0.points ++ h1.points,
          g.bounds.xMin ≤ p.x ∧ p.x ≤ g.bounds.xMax ∧
          g.bounds.yMin ≤ p.y ∧ p.y ≤ g.bounds.yMax ∧
          g.bounds.zMin ≤ p.z ∧ p.z ≤ g.bounds.zMax) ∧
        (h0.points ++ h1.points ≠ [] →
          (∃ p ∈ h0.points ++ h1.points, p.x = g.bounds.xMin) ∧
          (∃ p ∈ h0.points ++ h1.points, p.x = g.bounds.xMax) ∧
          (∃ p ∈ h0.points ++ h1.points, p.y = g.bounds.yMin) ∧
          (∃ p ∈ h0.points ++ h1.points, p.y = g.bounds.yMax) ∧
          (∃ p ∈ h0.points ++ h1.points, p.z = g.bounds.zMin) ∧
          (∃ p ∈ h0.points ++ h1.points, p.z = g.bounds.zMax))) ∧
    (∀ (gs : List Grid) (dir : MergeDir),
      (canCombineGrids gs).canCombine = true →
      ∃ g, combineGrids gs dir = some g ∧
        (∀ c ∈ g.points,
          g.bounds.xMin ≤ c.x ∧ c.x ≤ g.bounds.xMax ∧
          g.bounds.yMin ≤ c.y ∧ c.y ≤ g.bounds.yMax ∧
          g.bounds.zMin ≤ c.z ∧ c.z ≤ g.bounds.zMax) ∧
        (g.points ≠ [] →
          (∃ c ∈ g.points, c.x = g.bounds.xMin) ∧
          (∃ c ∈ g.points, c.x = g.bounds.xMax) ∧
          (∃ c ∈ g.points, c.y = g.bounds.yMin) ∧
          (∃ c ∈ g.points, c.y = g.bounds.yMax) ∧
          (∃ c ∈ g.points, c.z = g.bounds.zMin) ∧
          (∃ c ∈ g.points, c.z = g.bounds.zMax))) := by
  constructor
  · intro O gid n h0 h1 rest fd nL
    refine ⟨_, rfl, rfl, ?_, ?_⟩
    · intro p hp
      exact ⟨qMin_map_le Pt.x (buildAllPoints h0 h1) p hp,
        le_qMax_map Pt.x (buildAllPoints h0 h1) p hp,
        qMin_map_le Pt.y (buildAllPoints h0 h1) p hp,
        le_qMax_map Pt.y (buildAllPoints h0 h1) p hp,
        qMin_map_le Pt.z (buildAllPoints h0 h1) p hp,
        le_qMax_map Pt.z (buildAllPoints h0 h1) p hp⟩
    · intro hne
      refine ⟨?_, ?_, ?_, ?_, ?_, ?_⟩
      · rcases qMin_map_attained Pt.x (buildAllPoints h0 h1) hne with ⟨p, hp, he⟩
        exact ⟨p, hp, he⟩
      · rcases qMax_map_attained Pt.x (buildAllPoints h0 h1) hne with ⟨p, hp, he⟩
        exact ⟨p, hp, he⟩
      · rcases qMin_map_attained Pt.y (buildAllPoints h0 h1) hne with ⟨p, hp, he⟩
        exact ⟨p, hp, he⟩
      · rcases qMax_map_attained Pt.y (buildAllPoints h0 h1) hne with ⟨p, hp, he⟩
        exact ⟨p, hp, he⟩
      · rcases qMin_map_attained Pt.z (buildAllPoints h0 h1) hne with ⟨p, hp, he⟩
        exact ⟨p, hp, he⟩
      · rcases qMax_map_attained Pt.z (buildAllPoints h0 h1) hne with ⟨p, hp, he⟩
        exact ⟨p, hp, he⟩
  · intro gs dir h
    refine ⟨mergedGrid gs dir, ?_, ?_, ?_⟩
    · unfold combineGrids
      rw [if_pos h]
    · intro c hc
      rw [mergedGrid_bounds]
      exact ⟨qMin_map_le Cell.x _ c hc, le_qMax_map Cell.x _ c hc,
        qMin_map_le Cell.y _ c hc, le_qMax_map Cell.y _ c hc,
        qMin_map_le Cell.z _ c hc, le_qMax_map Cell.z _ c hc⟩
    · intro hne
      rw [mergedGrid_bounds]
      exact ⟨qMin_map_attained Cell.x _ hne, qMax_map_attained Cell.x _ hne,
        qMin_map_attained Cell.y _ hne, qMax_map_attained Cell.y _ hne,
        qMin_map_attained Cell.z _ hne, qMax_map_attained Cell.z _ hne⟩

/-- Witness for the amended C1: the merge half applied to two concrete
compatible grids (the build half has no hypothesis and is exercised at the
counterexample's horizons by the same theorem). -/
theorem C1_bounds_amended_witness :
    (canCombineGrids [gridA, gridA]).canCombine = true ∧
    (∃ g, combineGrids [gridA, gridA] MergeDir.vertical = some g ∧
      (∀ c ∈ g.points,
        g.bounds.xMin ≤ c.x ∧ c.x ≤ g.bounds.xMax ∧
        g.bounds.yMin ≤ c.y ∧ c.y ≤ g.bounds.yMax ∧
        g.bounds.zMin ≤ c.z ∧ c.z ≤ g.bounds.zMax) ∧
      (g.points ≠ [] →
        (∃ c ∈ g.points, c.x = g.bounds.xMin) ∧
        (∃ c ∈ g.points, c.x = g.bounds.xMax) ∧
        (∃ c ∈ g.points, c.y = g.bounds.yMin) ∧
        (∃ c ∈ g.points, c.y = g.bounds.yMax) ∧
        (∃ c ∈ g.points, c.z = g.bounds.zMin) ∧
        (∃ c ∈ g.points, c.z = g.bounds.zMax))) ∧
    (∃ g, generateGeologicalGrid trivOracle "w" 0 [hTopC, hBaseC] [] 0 =
        Except.ok g ∧
      g.bounds = buildBounds hTopC hBaseC ∧
      (∀ p ∈ hTopC.points ++ hBaseC.points,
        g.bounds.xMin ≤ p.x ∧ p.x ≤ g.bounds.xMax ∧
        g.bounds.yMin ≤ p.y ∧ p.y ≤ g.bounds.yMax ∧
        g.bounds.zMin ≤ p.z ∧ p.z ≤ g.bounds.zMax) ∧
      (hTopC.points ++ hBaseC.points ≠ [] →
        (∃ p ∈ hTopC.points ++ hBaseC.points, p.x = g.bounds.xMin) ∧
        (∃ p ∈ hTopC.points ++ hBaseC.points, p.x = g.bounds.xMax) ∧
        (∃ p ∈ hTopC.points ++ hBaseC.points, p.y = g.bounds.yMin) ∧
        (∃ p ∈ hTopC.points ++ hBaseC.points, p.y = g.bounds.yMax) ∧
        (∃ p ∈ hTopC.points ++ hBaseC.points, p.z = g.bounds.zMin) ∧
        (∃ p ∈ hTopC.points ++ hBaseC.points, p.z = g.bounds.zMax))) :=
  ⟨gridA_self_compat,
   C1_bounds_amended.2 [gridA, gridA] MergeDir.vertical gridA_self_compat,
   C1_bounds_amended.1 trivOracle "w" 0 hTopC hBaseC [] [] 0⟩

/-- The 10×10 flat top horizon of the C4 scenario: samples at spacing 100
over x, y ∈ {0, …, 900}, all at elevation 1000. -/
def flatTopPts : List Pt :=
  (List.range 10).bind fun (i : ℕ) => (List.range 10).map fun (j : ℕ) =>
    Pt.mk (100 * (i : ℚ)) (100 * (j : ℚ)) 1000

/-- The matching flat base horizon at elevation 900. -/
def flatBasePts : List Pt :=
  (List.range 10).bind fun (i : ℕ) => (List.range 10).map fun (j : ℕ) =>
    Pt.mk (100 * (i : ℚ)) (100 * (j : ℚ)) 900

/-- Top horizon object of the C4 scenario. -/
def hTop10 : Horizon := ⟨"Top", flatTopPts⟩

/-- Base horizon object of the C4 scenario. -/
def hBase10 : Horizon := ⟨"Base", flatBasePts⟩

theorem flat_mem_elim (zv : ℚ) (p : Pt)
    (hp : p ∈ (List.range 10).bind fun (i : ℕ) => (List.range 10).map
      fun (j : ℕ) => Pt.mk (100 * (i : ℚ)) (100 * (j : ℚ)) zv) :
    ∃ i j : ℕ, i < 10 ∧ j < 10 ∧
      p = Pt.mk (100 * (i : ℚ)) (100 * (j : ℚ)) zv := by
  rcases List.mem_bind.mp hp with ⟨i, hi, hp2⟩
  rcases List.mem_map.mp hp2 with ⟨j, hj, he⟩
  exact ⟨i, j, List.mem_range.mp hi, List.mem_range.mp hj, he.symm⟩

theorem flat_mem_intro (zv : ℚ) (i j : ℕ) (hi : i < 10) (hj : j < 10) :
    Pt.mk (100 * (i : ℚ)) (100 * (j : ℚ)) zv ∈
      (List.range 10).bind fun (i : ℕ) => (List.range 10).map
        fun (j : ℕ) => Pt.mk (100 * (i : ℚ)) (100 * (j : ℚ)) zv :=
  List.mem_bind.mpr ⟨i, List.mem_range.mpr hi,
    List.mem_map.mpr ⟨j, List.mem_range.mpr hj, rfl⟩⟩

theorem flatTop_ne_nil : flatTopPts ≠ [] :=
  List.ne_nil_of_mem (flat_mem_intro 1000 0 0 (by norm_num) (by norm_num))

theorem flatBase_ne_nil : flatBasePts ≠ [] :=
  List.ne_nil_of_mem (flat_mem_intro 900 0 0 (by norm_num) (by norm_num))

theorem interp_flatTop (x y : ℚ) : geologicalInterpolation x y flatTopPts = 1000 := by
  apply interp_const x y 1000 flatTopPts flatTop_ne_nil
  intro p hp
  rcases flat_mem_elim 1000 p hp with ⟨i, j, _, _, rfl⟩
  rfl

theorem interp_flatBase (x y : ℚ) : geologicalInterpolation x y flatBasePts = 900 := by
  apply interp_const x y 900 flatBasePts flatBase_ne_nil
  intro p hp
  rcases flat_mem_elim 900 p hp with ⟨i, j, _, _, rfl⟩
  rfl

theorem buildBounds10 : buildBounds hTop10 hBase10 = ⟨0, 900, 0, 900, 900, 1000⟩ := by
  have hall : buildAllPoints hTop10 hBase10 = flatTopPts ++ flatBasePts := rfl
  have hmem0 : Pt.mk 0 0 1000 ∈ buildAllPoints hTop10 hBase10 := by
    rw [hall]
    apply List.mem_append_left
    unfold flatTopPts
    refine List.mem_bind.mpr ⟨0, List.mem_range.mpr (by norm_num),
      List.mem_map.mpr ⟨0, List.mem_range.mpr (by norm_num), ?_⟩⟩
    simp only [Pt.mk.injEq]
    norm_num
  have hmem9 : Pt.mk 900 900 1000 ∈ buildAllPoints hTop10 hBase10 := by
    rw [hall]
    apply List.mem_append_left
    unfold flatTopPts
    refine List.mem_bind.mpr ⟨9, List.mem_range.mpr (by norm_num),
      List.mem_map.mpr ⟨9, List.mem_range.mpr (by norm_num), ?_⟩⟩
    simp only [Pt.mk.injEq]
    norm_num
  have hmemB : Pt.mk 0 0 900 ∈ buildAllPoints hTop10 hBase10 := by
    rw [hall]
    apply List.mem_append_right
    unfold flatBasePts
    refine List.mem_bind.mpr ⟨0, List.mem_range.mpr (by norm_num),
      List.mem_map.mpr ⟨0, List.mem_range.mpr (by norm_num), ?_⟩⟩
    simp only [Pt.mk.injEq]
    norm_num
  have hco : ∀ p ∈ buildAllPoints hTop10 hBase10,
      (0 ≤ p.x ∧ p.x ≤ 900) ∧ (0 ≤ p.y ∧ p.y ≤ 900) ∧
      (900 ≤ p.z ∧ p.z ≤ 1000) := by
    intro p hp
    rw [hall] at hp
    have hcoord : ∃ i j : ℕ, i < 10 ∧ j < 10 ∧
        (p = Pt.mk (100 * (i : ℚ)) (100 * (j : ℚ)) 1000 ∨
         p = Pt.mk (100 * (i : ℚ)) (100 * (j : ℚ)) 900) := by
      rcases List.mem_append.mp hp with h1 | h1
      · rcases flat_mem_elim 1000 p h1 with ⟨i, j, hi, hj, he⟩
        exact ⟨i, j, hi, hj, Or.inl he⟩
      · rcases flat_mem_elim 900 p h1 with ⟨i, j, hi, hj, he⟩
        exact ⟨i, j, hi, hj, Or.inr he⟩
    rcases hcoord with ⟨i, j, hi, hj, he | he⟩ <;>
    · subst he
      have hiq : (i : ℚ) ≤ 9 := by exact_mod_cast Nat.lt_succ_iff.mp hi
      have hjq : (j : ℚ) ≤ 9 := by exact_mod_cast Nat.lt_succ_iff.mp hj
      have hiq0 : (0 : ℚ) ≤ (i : ℚ) := by positivity
      have hjq0 : (0 : ℚ) ≤ (j : ℚ) := by positivity
      refine ⟨⟨by simpa using by positivity, ?_⟩, ⟨by simpa using by positivity, ?_⟩,
        by norm_num⟩
      · show 100 * (i : ℚ) ≤ 900
        linarith
      · show 100 * (j : ℚ) ≤ 900
        linarith
  unfold buildBounds envelope
  have hx1 : qMin ((buildAllPoints hTop10 hBase10).map Pt.x) = 0 := by
    apply qMin_eq_of
    · exact List.mem_map.mpr ⟨Pt.mk 0 0 1000, hmem0, rfl⟩
    · intro a ha
      rcases List.mem_map.mp ha with ⟨p, hp, rfl⟩
      exact ((hco p hp).1).1
  have hx2 : qMax ((buildAllPoints hTop10 hBase10).map Pt.x) = 900 := by
    apply qMax_eq_of
    · refine List.mem_map.mpr ⟨Pt.mk 900 900 1000, hmem9, rfl⟩
    · intro a ha
      rcases List.mem_map.mp ha with ⟨p, hp, rfl⟩
      exact ((hco p hp).1).2
  have hy1 : qMin ((buildAllPoints hTop10 hBase10).map Pt.y) = 0 := by
    apply qMin_eq_of
    · exact List.mem_map.mpr ⟨Pt.mk 0 0 1000, hmem0, rfl⟩
    · intro a ha
      rcases List.mem_map.mp ha with ⟨p, hp, rfl⟩
      exact ((hco p hp).2).1.1
  have hy2 : qMax ((buildAllPoints hTop10 hBase10).map Pt.y) = 900 := by
    apply qMax_eq_of
    · exact List.mem_map.mpr ⟨Pt.mk 900 900 1000, hmem9, rfl⟩
    · intro a ha
      rcases List.mem_map.mp ha with ⟨p, hp, rfl⟩
      exact ((hco p hp).2).1.2
  have hz1 : qMin ((buildAllPoints hTop10 hBase10).map Pt.z) = 900 := by
    apply qMin_eq_of
    · exact List.mem_map.mpr ⟨Pt.mk 0 0 900, hmemB, rfl⟩
    · intro a ha
      rcases List.mem_map.mp ha with ⟨p, hp, rfl⟩
      exact ((hco p hp).2).2.1
  have hz2 : qMax ((buildAllPoints hTop10 hBase10).map Pt.z) = 1000 := by
    apply qMax_eq_of
    · exact List.mem_map.mpr ⟨Pt.mk 0 0 1000, hmem0, rfl⟩
    · intro a ha
      rcases List.mem_map.mp ha with ⟨p, hp, rfl⟩
      exact ((hco p hp).2).2.2
  rw [hx1, hx2, hy1, hy2, hz1, hz2]

theorem buildSpacing10 : buildSpacing hTop10 hBase10 = 20 := by
  unfold buildSpacing
  rw [buildBounds10]
  norm_num

theorem buildXs10 : buildXs hTop10 hBase10 = latticeQ 0 900 20 := by
  unfold buildXs
  rw [buildBounds10, buildSpacing10]

theorem buildYs10 : buildYs hTop10 hBase10 = latticeQ 0 900 20 := by
  unfold buildYs
  rw [buildBounds10, buildSpacing10]

theorem latticeQ900 : latticeQ 0 900 20 =
    (List.range 46).map fun (k : ℕ) => 0 + (k : ℚ) * 20 := by
  unfold latticeQ
  have hf : ⌊(((900 : ℚ)) - 0) / 20⌋ = 45 := by norm_num
  rw [if_pos ⟨by norm_num, by norm_num⟩, hf]
  rfl

theorem range_filter_eq_zero (n : ℕ) (h : 0 < n) :
    (List.range n).filter (fun k => k == 0) = [0] := by
  cases n with
  | zero => omega
  | succ m =>
    rw [List.range_succ_eq_map]
    rw [List.filter_cons_of_pos (by simp)]
    have ht : ((List.range m).map Nat.succ).filter (fun k => k == 0) = [] := by
      apply List.filter_eq_nil.mpr
      intro a ha
      rcases List.mem_map.mp ha with ⟨b, _, rfl⟩
      simp
    rw [ht]

theorem latticeQ900_filter :
    (latticeQ 0 900 20).filter (fun a => decide (round2 a = 0)) = [0] := by
  rw [latticeQ900, List.filter_map]
  have hcong : (List.range 46).filter
      ((fun a => decide (round2 a = 0)) ∘ (fun (k : ℕ) => 0 + (k : ℚ) * 20)) =
      (List.range 46).filter (fun k => k == 0) := by
    apply List.filter_congr
    intro k _
    show decide (round2 (0 + (k : ℚ) * 20) = 0) = (k == 0)
    have h20 : (0 : ℚ) + (k : ℚ) * 20 = ((20 * k : ℕ) : ℚ) := by
      push_cast
      ring
    rw [h20, round2_natCast]
    cases k with
    | zero =>
      rw [decide_eq_true (by norm_num : ((20 * 0 : ℕ) : ℚ) = 0)]
      rfl
    | succ m =>
      have hne : ((20 * (m + 1) : ℕ) : ℚ) ≠ 0 := by
        rw [Nat.cast_ne_zero]
        omega
      rw [decide_eq_false hne]
      rfl
  rw [hcong, range_filter_eq_zero 46 (by norm_num)]
  simp

theorem round2_num (q : ℚ) (m : ℤ) (h : q = (m : ℚ)) : round2 q = (m : ℚ) := by
  rw [h, round2_intCast]

theorem cellsAt_origin_flat (O : Oracle) (hsin : O.sinF 0 = 0) :
    ((cellsAtPosition O flatTopPts flatBasePts [] 3 20 0 0).filter
      (fun c => decide (c.x = 0 ∧ c.y = 0))).map Cell.z =
      [900, 925, 950, 975, 1000] := by
  have hdisp : ∀ r z : ℚ,
      (calculateAdvancedFaultInfluence O.expK r [] 0 0 z).displacement = 0 := by
    intro r z
    rw [show calculateAdvancedFaultInfluence O.expK r [] 0 0 z =
      faultInfluenceCore O.expK 120 (8/100) 60 r [] 0 0 z from rfl,
      faultInfluenceCore_nil]
  unfold cellsAtPosition
  simp only [interp_flatTop, interp_flatBase]
  rw [if_neg (by norm_num : ¬ (1000 : ℚ) ≤ 900)]
  simp only [zero_mul, hsin, add_zero, hdisp, round2_zero]
  rw [show List.range (3 + 2) = [0, 1, 2, 3, 4] from rfl]
  simp only [List.map_cons, List.map_nil]
  rw [List.filter_cons_of_pos (by exact decide_eq_true ⟨rfl, rfl⟩)]
  rw [List.filter_cons_of_pos (by exact decide_eq_true ⟨rfl, rfl⟩)]
  rw [List.filter_cons_of_pos (by exact decide_eq_true ⟨rfl, rfl⟩)]
  rw [List.filter_cons_of_pos (by exact decide_eq_true ⟨rfl, rfl⟩)]
  rw [List.filter_cons_of_pos (by exact decide_eq_true ⟨rfl, rfl⟩)]
  rw [List.filter_nil]
  simp only [List.map_cons, List.map_nil, List.cons.injEq, and_true]
  refine ⟨?_, ?_, ?_, ?_, ?_⟩
  · exact (round2_num _ 900 (by norm_num)).trans (by norm_num)
  · exact (round2_num _ 925 (by norm_num)).trans (by norm_num)
  · exact (round2_num _ 950 (by norm_num)).trans (by norm_num)
  · exact (round2_num _ 975 (by norm_num)).trans (by norm_num)
  · exact (round2_num _ 1000 (by norm_num)).trans (by norm_num)

/-- C4: for the flat unfaulted slab input (top horizon flat at z = 1000
over a 10×10 sample grid at spacing 100, base horizon flat at z = 900, no
fault systems, numLayers = 3), the build emits at sample position (0, 0)
exactly 5 cells whose rounded elevations are 900.00, 925.00, 950.00,
975.00 and 1000.00 — the structural dip term being 0 at the origin (the
only fact used about `Math.sin` is `sin 0 = 0`, stated as the hypothesis
on the oracle). -/
theorem C4_flat_slab (O : Oracle) (gid : String) (n : ℕ) (hsin : O.sinF 0 = 0) :
    ∃ g, generateGeologicalGrid O gid n [hTop10, hBase10] [] 3 = Except.ok g ∧
      ((g.points.filter fun c => decide (c.x = 0 ∧ c.y = 0)).map Cell.z) =
        [900, 925, 950, 975, 1000] := by
  refine ⟨_, rfl, ?_⟩
  show ((buildCells O hTop10 hBase10 [] 3).filter
    (fun c => decide (c.x = 0 ∧ c.y = 0))).map Cell.z = _
  unfold buildCells
  rw [buildXs10, buildYs10, buildSpacing10]
  have hOuter : ∀ x ∈ latticeQ 0 900 20, (fun a => decide (round2 a = 0)) x = false →
      ∀ b ∈ ((latticeQ 0 900 20).bind fun y =>
        cellsAtPosition O hTop10.points hBase10.points [] 3 20 x y),
        (fun c => decide (c.x = 0 ∧ c.y = 0)) b = false := by
    intro x _ hq b hb
    rcases List.mem_bind.mp hb with ⟨y, _, hb2⟩
    have hcx := (cellsAtPosition_coords O hTop10.points hBase10.points [] 3 20
      x y b hb2).1
    have hne := of_decide_eq_false hq
    apply decide_eq_false
    intro hcon
    exact hne (by rw [← hcx]; exact hcon.1)
  rw [filter_bind_of_false (fun c : Cell => decide (c.x = 0 ∧ c.y = 0))
    (fun a : ℚ => decide (round2 a = 0)) _ (latticeQ 0 900 20) hOuter,
    latticeQ900_filter]
  simp only [List.cons_bind, List.nil_bind, List.append_nil]
  have hInner : ∀ y ∈ latticeQ 0 900 20, (fun a => decide (round2 a = 0)) y = false →
      ∀ b ∈ cellsAtPosition O hTop10.points hBase10.points [] 3 20 0 y,
        (fun c => decide (c.x = 0 ∧ c.y = 0)) b = false := by
    intro y _ hq b hb
    have hcy := (cellsAtPosition_coords O hTop10.points hBase10.points [] 3 20
      0 y b hb).2
    have hne := of_decide_eq_false hq
    apply decide_eq_false
    intro hcon
    exact hne (by rw [← hcy]; exact hcon.2)
  rw [filter_bind_of_false (fun c : Cell => decide (c.x = 0 ∧ c.y = 0))
    (fun a : ℚ => decide (round2 a = 0)) _ (latticeQ 0 900 20) hInner,
    latticeQ900_filter]
  simp only [List.cons_bind, List.nil_bind, List.append_nil]
  exact cellsAt_origin_flat O hsin

/-- Witness for C4 at a concrete oracle (all ambient functions constantly
zero, in particular `sinF 0 = 0` holds). -/
theorem C4_flat_slab_witness :
    trivOracle.sinF 0 = 0 ∧
    ∃ g, generateGeologicalGrid trivOracle "w4" 0 [hTop10, hBase10] [] 3 =
        Except.ok g ∧
      ((g.points.filter fun c => decide (c.x = 0 ∧ c.y = 0)).map Cell.z) =
        [900, 925, 950, 975, 1000] :=
  ⟨rfl, C4_flat_slab trivOracle "w4" 0 rfl⟩
